import Mathlib

/-!
# CiviLink: governance view and action gating

A shallow embedding of the client-side action handlers, statistics and proposal list
assembly of the CiviLink front end (`src/components/ProposalCard.jsx`,
`src/pages/Governance.jsx`, `src/pages/Dashboard.jsx`, `src/pages/Proposals.jsx`,
`src/pages/CreateProposal.jsx`, `src/pages/Profile.jsx`) together with the statements of its
specification that concern them.

Conventions of the embedding.

* A value delivered by a `useReadContract` hook is an `Option Bool`: `none` is the
  JavaScript `undefined` the hook yields while the read is pending, disabled or failed.
  A JavaScript condition `if (x)` is `truthy x`.
* Timestamps are integers (seconds); `now` is `Math.floor(Date.now() / 1000)`.
* Counts, ids and credit totals are natural numbers, on which `Number(...)` is exact; the
  one place where the code divides Numbers, the participation rate, is computed in the
  double format.
* An asynchronous handler is a function from the component state and the outcomes of
  the calls it awaits to the list of observable effects it performs, in program order.
-/

namespace CiviLink

/-! ## JavaScript values -/

/-- The value of a contract read hook: `none` is `undefined`. -/
abbrev ReadData := Option Bool

/-- JavaScript truthiness of a hook value: only `true` is truthy, `undefined` and `false` are not. -/
def truthy : ReadData → Bool
  | some true => true
  | _ => false

/-- The result of `parseFloat`, kept as the exact mathematical value of the parsed literal.
`decimal neg mant exp` stands for the Number nearest to `± mant × 10 ^ exp`. -/
inductive JSNumber where
  | nan
  | infinity (neg : Bool)
  | decimal (neg : Bool) (mant : Nat) (exp : Int)
  deriving DecidableEq, Repr

/-- White space and line terminators removed by `TrimString` (ECMAScript `WhiteSpace` and
`LineTerminator`). -/
def isJSWhiteSpace (c : Char) : Bool :=
  let n := c.toNat
  n == 0x09 || n == 0x0A || n == 0x0B || n == 0x0C || n == 0x0D || n == 0x20 || n == 0xA0 ||
  n == 0x1680 || (0x2000 ≤ n && n ≤ 0x200A) || n == 0x2028 || n == 0x2029 || n == 0x202F ||
  n == 0x205F || n == 0x3000 || n == 0xFEFF

/-- Decimal digit test on a code point. -/
def isDecimalDigit (c : Char) : Bool :=
  48 ≤ c.toNat && c.toNat ≤ 57

/-- Value of a run of decimal digits. -/
def digitsValue (ds : List Char) : Nat :=
  ds.foldl (fun acc c => 10 * acc + (c.toNat - 48)) 0

/-- The `ExponentPart` of a `StrDecimalLiteral`, if the input starts with one:
`e` or `E`, an optional sign, and at least one digit. Absent or malformed exponents
contribute `0` (the literal ends before them). -/
def parseExponent : List Char → Int
  | c :: rest =>
    if c == 'e' || c == 'E' then
      match rest with
      | s :: rest2 =>
        if s == '+' then
          (if (rest2.takeWhile isDecimalDigit).isEmpty then 0
           else (digitsValue (rest2.takeWhile isDecimalDigit) : Int))
        else if s == '-' then
          (if (rest2.takeWhile isDecimalDigit).isEmpty then 0
           else - (digitsValue (rest2.takeWhile isDecimalDigit) : Int))
        else
          (if (rest.takeWhile isDecimalDigit).isEmpty then 0
           else (digitsValue (rest.takeWhile isDecimalDigit) : Int))
      | [] => 0
    else 0
  | [] => 0

/-- The longest leading `StrUnsignedDecimalLiteral` of the input:
`Infinity`, `digits [. digits?] exponent?` or `. digits exponent?`. -/
def parseUnsigned (neg : Bool) (cs : List Char) : JSNumber :=
  if "Infinity".toList.isPrefixOf cs then JSNumber.infinity neg
  else
    let intDigits := cs.takeWhile isDecimalDigit
    let afterInt := cs.dropWhile isDecimalDigit
    match afterInt with
    | c :: afterDot =>
      if c == '.' then
        let fracDigits := afterDot.takeWhile isDecimalDigit
        let afterFrac := afterDot.dropWhile isDecimalDigit
        if intDigits.isEmpty && fracDigits.isEmpty then JSNumber.nan
        else
          JSNumber.decimal neg (digitsValue (intDigits ++ fracDigits))
            (parseExponent afterFrac - (fracDigits.length : Int))
      else if intDigits.isEmpty then JSNumber.nan
      else JSNumber.decimal neg (digitsValue intDigits) (parseExponent afterInt)
    | [] =>
      if intDigits.isEmpty then JSNumber.nan
      else JSNumber.decimal neg (digitsValue intDigits) 0

/-- The global function `parseFloat` on a string: leading white space is skipped, then the
longest leading `StrDecimalLiteral` is read; `NaN` when there is none. -/
def parseFloat (s : String) : JSNumber :=
  match s.toList.dropWhile isJSWhiteSpace with
  | c :: rest =>
    if c == '+' then parseUnsigned false rest
    else if c == '-' then parseUnsigned true rest
    else parseUnsigned false (c :: rest)
  | [] => JSNumber.nan

/-- A positive literal `mant × 10 ^ exp` rounds to `+0` exactly when it is at most
`2 ^ (-1075)`, half the least positive double (round to nearest, ties to even). -/
def roundsToZero (mant : Nat) (exp : Int) : Bool :=
  decide (exp < 0) && decide (mant * 2 ^ 1075 ≤ 10 ^ (-exp).toNat)

/-- The comparison `x <= 0` on the Number denoted by a `JSNumber`. `NaN` compares false. -/
def JSNumber.leZero : JSNumber → Bool
  | .nan => false
  | .infinity neg => neg
  | .decimal neg mant exp => neg || mant == 0 || roundsToZero mant exp

/-- The comparison `x > 0` on the Number denoted by a `JSNumber`. `NaN` compares false. -/
def JSNumber.gtZero : JSNumber → Bool
  | .nan => false
  | .infinity neg => !neg
  | .decimal neg mant exp => !neg && mant != 0 && !roundsToZero mant exp

/-- An exception value as the handlers inspect it: `error.reason` and `error.message`. -/
structure JSError where
  reason : Option String
  message : Option String
  deriving DecidableEq, Repr

/-- The expression `a || b` where `a` is an optional string and `b` a string:
`undefined` and the empty string are falsy. -/
def strOr (a : Option String) (b : String) : String :=
  match a with
  | some s => if s = "" then b else s
  | none => b

/-! ## The number input -/

/-- A non-empty run of ASCII digits and nothing else. -/
def isDigitRun (cs : List Char) : Bool :=
  !cs.isEmpty && cs.all isDecimalDigit

/-- The optional exponent that may close a valid floating-point number: nothing, or `e`/`E`,
an optional sign and a run of digits up to the end of the string. -/
def isExponentSuffix : List Char → Bool
  | [] => true
  | c :: rest =>
    (c == 'e' || c == 'E') &&
    (match rest with
     | s :: rest2 => if s == '+' || s == '-' then isDigitRun rest2 else isDigitRun rest
     | [] => false)

/-- The part of a valid floating-point number after its optional minus sign: digits, or digits
with a fraction, or a fraction alone, then the optional exponent. -/
def validUnsigned (cs : List Char) : Bool :=
  let intDigits := cs.takeWhile isDecimalDigit
  match cs.dropWhile isDecimalDigit with
  | c :: afterDot =>
    if c == '.' then
      !(afterDot.takeWhile isDecimalDigit).isEmpty &&
        isExponentSuffix (afterDot.dropWhile isDecimalDigit)
    else !intDigits.isEmpty && isExponentSuffix (c :: afterDot)
  | [] => !intDigits.isEmpty

/-- The "valid floating-point number" syntax of the HTML standard, which is what an
`<input type="number">` accepts as its value. -/
def isValidFloatingPointNumber (s : String) : Bool :=
  match s.toList with
  | c :: rest => if c == '-' then validUnsigned rest else validUnsigned (c :: rest)
  | [] => false

/-- The `value` of the card's `<input type="number">` once the user has typed `entry`
(value sanitization): the entry when it is a valid floating-point number, the empty string
otherwise. This is what `onChange` stores in `voteCredits`. -/
def numberInputValue (entry : String) : String :=
  if isValidFloatingPointNumber entry then entry else ""

/-- An entry that denotes a positive number: a valid floating-point number whose Number
value is greater than zero. -/
def positiveEntry (entry : String) : Bool :=
  isValidFloatingPointNumber entry && (parseFloat entry).gtZero

/-! ## Data model -/

/-- A proposal as assembled by the pages and handed to the card (`Proposals.jsx`, `Dashboard.jsx`). -/
structure Proposal where
  id : Nat
  description : String
  category : Nat
  endTime : Int
  targetAddress : String
  allocatedAmount : String
  totalYesCredits : Nat
  totalNoCredits : Nat
  vetoVotes : Nat
  executed : Bool
  paused : Bool
  deriving DecidableEq, Repr

/-- The in-flight flags kept in component state. -/
inductive Flag where
  | isVotingYes
  | isVotingNo
  | isVetoing
  | isExecuting
  | isDelegating
  | isAssigningProxy
  | isRevoking
  | isRegistering
  | isApproving
  | isSubmitting
  deriving DecidableEq, Repr

/-- An argument of a contract write. -/
inductive Arg where
  | num (n : Nat)
  | bool (b : Bool)
  | str (s : String)
  deriving DecidableEq, Repr

/-- The re-reads a handler can request. -/
inductive Refetch where
  | hasVoted
  | hasVetoed
  | delegation
  | proxy
  | allowance
  deriving DecidableEq, Repr

/-- The observable effects of a handler, in program order. -/
inductive Effect where
  | toastError (msg : String)
  | toastSuccess (msg : String)
  | consoleError (msg : String)
  | setFlag (f : Flag) (b : Bool)
  | setVoteHashNull
  | setVetoHashNull
  | setDelegateAddress (s : String)
  | setProxyAddress (s : String)
  | setRegisterError (msg : Option String)
  | setIsCitizen (b : Bool)
  | resetFormData
  | writeContract (functionName : String) (args : List Arg)
  | waitForTransaction (txHash : String)
  | refetch (r : Refetch)
  | onProposalChanged
  deriving DecidableEq, Repr

/-- The outcomes of the calls a handler awaits. `write` is the result of `writeContractAsync`,
`wait` that of building the provider and awaiting `waitForTransaction`, `refetched` that of the
awaited refetch, and `changed` that of the optional `onProposalChanged` callback
(`none` when the prop is not supplied). -/
structure Outcomes where
  write : Except JSError String
  wait : Except JSError Unit
  refetched : Except JSError Unit
  changed : Option (Except JSError Unit)

/-- The state a `ProposalCard` handler closes over. -/
structure CardState where
  proposal : Proposal
  now : Int
  voteCredits : String
  isCitizen : ReadData
  hasVoted : ReadData
  hasVetoed : ReadData

/-! ## ProposalCard.jsx -/

/-- The card's notion of an ended proposal, `proposal.endTime < Math.floor(Date.now() / 1000)`. -/
def isEnded (p : Proposal) (now : Int) : Bool :=
  decide (p.endTime < now)

/-- The first guard of `handleVote`: `!voteCredits || parseFloat(voteCredits) <= 0`. -/
def creditsInvalid (voteCredits : String) : Bool :=
  voteCredits == "" || (parseFloat voteCredits).leZero

/-- The `catch` block of `handleVote`. -/
def voteCatch (e : JSError) : List Effect :=
  [Effect.toastError (strOr e.reason (strOr e.message "Failed to submit vote")),
   Effect.setFlag Flag.isVotingYes false, Effect.setFlag Flag.isVotingNo false]

/-- The body of `handleVote` after its guards: the flag, the write and what follows it. -/
def voteSubmit (s : CardState) (support : Bool) (o : Outcomes) : List Effect :=
  [Effect.setFlag (if support then Flag.isVotingYes else Flag.isVotingNo) true,
   Effect.writeContract "vote" [Arg.num s.proposal.id, Arg.bool support, Arg.str s.voteCredits]] ++
  match o.write with
  | .error e => voteCatch e
  | .ok txHash =>
    Effect.waitForTransaction txHash ::
    match o.wait with
    | .error e => voteCatch e
    | .ok _ =>
      Effect.toastSuccess "Vote submitted!" :: Effect.refetch Refetch.hasVoted ::
      match o.refetched with
      | .error e => voteCatch e
      | .ok _ =>
        match o.changed with
        | some (.error e) => Effect.onProposalChanged :: voteCatch e
        | some (.ok _) =>
          [Effect.onProposalChanged, Effect.setVoteHashNull,
           Effect.setFlag Flag.isVotingYes false, Effect.setFlag Flag.isVotingNo false]
        | none =>
          [Effect.setVoteHashNull,
           Effect.setFlag Flag.isVotingYes false, Effect.setFlag Flag.isVotingNo false]

/-- The handler `handleVote(support)` of the card. -/
def handleVote (s : CardState) (support : Bool) (o : Outcomes) : List Effect :=
  if creditsInvalid s.voteCredits then [Effect.toastError "Please enter valid vote credits"]
  else if !truthy s.isCitizen then [Effect.toastError "You must be a registered citizen to vote."]
  else if isEnded s.proposal s.now then [Effect.toastError "Voting period has ended."]
  else if s.proposal.paused then [Effect.toastError "Proposal is paused."]
  else if s.proposal.executed then [Effect.toastError "Proposal already executed."]
  else if truthy s.hasVetoed then [Effect.toastError "You have already vetoed this proposal."]
  else if truthy s.hasVoted then [Effect.toastError "You have already voted on this proposal."]
  else voteSubmit s support o

/-- The `catch` block of `handleVeto`. -/
def vetoCatch (e : JSError) : List Effect :=
  [Effect.toastError (strOr e.reason (strOr e.message "Failed to submit veto")),
   Effect.setFlag Flag.isVetoing false]

/-- The body of `handleVeto` after its guards. -/
def vetoSubmit (s : CardState) (o : Outcomes) : List Effect :=
  [Effect.setFlag Flag.isVetoing true,
   Effect.writeContract "veto" [Arg.num s.proposal.id]] ++
  match o.write with
  | .error e => vetoCatch e
  | .ok txHash =>
    Effect.waitForTransaction txHash ::
    match o.wait with
    | .error e => vetoCatch e
    | .ok _ =>
      Effect.toastSuccess "Veto submitted successfully!" :: Effect.refetch Refetch.hasVetoed ::
      match o.refetched with
      | .error e => vetoCatch e
      | .ok _ =>
        match o.changed with
        | some (.error e) => Effect.onProposalChanged :: vetoCatch e
        | some (.ok _) =>
          [Effect.onProposalChanged, Effect.setVetoHashNull, Effect.setFlag Flag.isVetoing false]
        | none => [Effect.setVetoHashNull, Effect.setFlag Flag.isVetoing false]

/-- The handler `handleVeto()` of the card. -/
def handleVeto (s : CardState) (o : Outcomes) : List Effect :=
  if !truthy s.isCitizen then [Effect.toastError "You must be a registered citizen to veto."]
  else if isEnded s.proposal s.now then [Effect.toastError "Voting period has ended."]
  else if s.proposal.paused then [Effect.toastError "Proposal is paused."]
  else if s.proposal.executed then [Effect.toastError "Proposal already executed."]
  else if truthy s.hasVoted then [Effect.toastError "You have already voted on this proposal."]
  else if truthy s.hasVetoed then [Effect.toastError "You have already vetoed this proposal."]
  else vetoSubmit s o

/-- The `catch` block of `handleExecute`. -/
def executeCatch (e : JSError) : List Effect :=
  [Effect.consoleError "Error executing proposal:",
   Effect.toastError (strOr e.message "Failed to execute proposal")]

/-- The handler `handleExecute()` of the card; the `finally` block closes every path that
entered the `try`. -/
def handleExecute (s : CardState) (o : Outcomes) : List Effect :=
  if !isEnded s.proposal s.now || s.proposal.executed || s.proposal.paused then []
  else
    [Effect.setFlag Flag.isExecuting true,
     Effect.writeContract "executeProposal" [Arg.num s.proposal.id]] ++
    (match o.write with
     | .error e => executeCatch e
     | .ok txHash =>
       Effect.waitForTransaction txHash ::
       match o.wait with
       | .error e => executeCatch e
       | .ok _ =>
         Effect.toastSuccess "Proposal executed successfully!" ::
         match o.changed with
         | some (.error e) => Effect.onProposalChanged :: executeCatch e
         | some (.ok _) => [Effect.onProposalChanged]
         | none => []) ++
    [Effect.setFlag Flag.isExecuting false]

/-! ## Eligibility rules as the specification lists them -/

/-- The denial reasons of the eligibility rules. -/
inductive Denial where
  | notCitizen
  | ended
  | paused
  | executed
  | vetoed
  | voted
  deriving DecidableEq, Repr

/-- The first rule, in the listed order, whose predicate is true. -/
def firstDenial : List (Bool × Denial) → Option Denial
  | [] => none
  | (b, d) :: rest => if b then some d else firstDenial rest

/-- The six predicates of a card state, listed in the order given for the vote action. -/
def voteRules (s : CardState) : List (Bool × Denial) :=
  [(!truthy s.isCitizen, Denial.notCitizen), (isEnded s.proposal s.now, Denial.ended),
   (s.proposal.paused, Denial.paused), (s.proposal.executed, Denial.executed),
   (truthy s.hasVetoed, Denial.vetoed), (truthy s.hasVoted, Denial.voted)]

/-- The six predicates of a card state, listed in the order given for the veto action. -/
def vetoRules (s : CardState) : List (Bool × Denial) :=
  [(!truthy s.isCitizen, Denial.notCitizen), (isEnded s.proposal s.now, Denial.ended),
   (s.proposal.paused, Denial.paused), (s.proposal.executed, Denial.executed),
   (truthy s.hasVoted, Denial.voted), (truthy s.hasVetoed, Denial.vetoed)]

/-- The message the vote action shows for a denial reason. -/
def voteMessage : Denial → String
  | .notCitizen => "You must be a registered citizen to vote."
  | .ended => "Voting period has ended."
  | .paused => "Proposal is paused."
  | .executed => "Proposal already executed."
  | .vetoed => "You have already vetoed this proposal."
  | .voted => "You have already voted on this proposal."

/-- The message the veto action shows for a denial reason. -/
def vetoMessage : Denial → String
  | .notCitizen => "You must be a registered citizen to veto."
  | .ended => "Voting period has ended."
  | .paused => "Proposal is paused."
  | .executed => "Proposal already executed."
  | .vetoed => "You have already vetoed this proposal."
  | .voted => "You have already voted on this proposal."

/-- A handler run issues a contract write. -/
def issuesWrite (es : List Effect) : Bool :=
  es.any fun e => match e with
    | .writeContract _ _ => true
    | _ => false

/-- A card state built from the six flags, with the credits left at their initial value. -/
def flagState (citizen ended paused executed voted vetoed : Bool) : CardState :=
  { proposal :=
      { id := 5, description := "", category := 1, endTime := (if ended then 99 else 101),
        targetAddress := "", allocatedAmount := "0", totalYesCredits := 0, totalNoCredits := 0,
        vetoVotes := 0, executed := executed, paused := paused },
    now := 100, voteCredits := "100", isCitizen := some citizen,
    hasVoted := some voted, hasVetoed := some vetoed }

/-- Outcomes in which every awaited call succeeds. -/
def allOk : Outcomes :=
  { write := .ok "0xabc", wait := .ok (), refetched := .ok (), changed := some (.ok ()) }

/-- A citizen with valid credits on an open proposal whose `hasVoted` read has not returned. -/
def unknownVoteRecord : CardState :=
  { flagState true false false false false false with hasVoted := none }

/-- A citizen with valid credits on an open, untouched proposal at the instant `now = endTime`. -/
def boundaryState : CardState :=
  { flagState true false false false false false with now := 101 }

/-- A registered non-citizen who has emptied the credits field. -/
def nonCitizenNoCredits : CardState :=
  { flagState false false false false false false with voteCredits := "" }

/-! ## Governance.jsx -/

/-- The state the Governance handlers close over: the connected address (`none` when no
wallet is connected) and the two address fields, which are plain text inputs. -/
structure GovState where
  address : Option String
  delegateAddress : String
  proxyAddress : String

/-- The method `toLowerCase` on the ASCII range, the range of every address string. -/
def toLowerCase (s : String) : String :=
  String.mk (s.toList.map Char.toLower)

/-- The comparison `target.toLowerCase() === address?.toLowerCase()`; with no connected
address the right side is `undefined` and the comparison is false. -/
def sameAsActing (target : String) (address : Option String) : Bool :=
  match address with
  | some a => toLowerCase target == toLowerCase a
  | none => false

/-- The `catch` block of `handleDelegate`. -/
def delegateCatch (e : JSError) : List Effect :=
  [Effect.toastError (strOr e.message "Failed to delegate"),
   Effect.setFlag Flag.isDelegating false]

/-- The handler `handleDelegate()`; `isAddress` is `ethers.utils.isAddress`. -/
def handleDelegate (isAddress : String → Bool) (g : GovState) (o : Outcomes) : List Effect :=
  if g.delegateAddress == "" || !isAddress g.delegateAddress then
    [Effect.toastError "Please enter a valid address"]
  else if sameAsActing g.delegateAddress g.address then
    [Effect.toastError "Cannot delegate to yourself"]
  else
    [Effect.setFlag Flag.isDelegating true,
     Effect.writeContract "delegateTo" [Arg.str g.delegateAddress]] ++
    match o.write with
    | .error e => delegateCatch e
    | .ok txHash =>
      Effect.waitForTransaction txHash ::
      match o.wait with
      | .error e => delegateCatch e
      | .ok _ =>
        [Effect.toastSuccess "Delegation created successfully!",
         Effect.setFlag Flag.isDelegating false, Effect.setDelegateAddress "",
         Effect.refetch Refetch.delegation] ++
        match o.refetched with
        | .error e => delegateCatch e
        | .ok _ => []

/-- The `catch` block of `handleAssignProxy`. -/
def assignProxyCatch (e : JSError) : List Effect :=
  [Effect.toastError (strOr e.message "Failed to assign proxy"),
   Effect.setFlag Flag.isAssigningProxy false]

/-- The handler `handleAssignProxy()`; `isAddress` is `ethers.utils.isAddress`. -/
def handleAssignProxy (isAddress : String → Bool) (g : GovState) (o : Outcomes) : List Effect :=
  if g.proxyAddress == "" || !isAddress g.proxyAddress then
    [Effect.toastError "Please enter a valid address"]
  else if sameAsActing g.proxyAddress g.address then
    [Effect.toastError "Cannot assign yourself as proxy"]
  else
    [Effect.setFlag Flag.isAssigningProxy true,
     Effect.writeContract "assignProxy" [Arg.str g.proxyAddress]] ++
    match o.write with
    | .error e => assignProxyCatch e
    | .ok txHash =>
      Effect.waitForTransaction txHash ::
      match o.wait with
      | .error e => assignProxyCatch e
      | .ok _ =>
        [Effect.toastSuccess "Proxy assigned successfully!",
         Effect.setFlag Flag.isAssigningProxy false, Effect.setProxyAddress "",
         Effect.refetch Refetch.proxy] ++
        match o.refetched with
        | .error e => assignProxyCatch e
        | .ok _ => []

/-- A well-formed identity: a non-empty string that `isAddress` accepts. -/
def wellFormedAddress (isAddress : String → Bool) (target : String) : Bool :=
  target != "" && isAddress target

/-- An instance of the address test for concrete runs: `0x` and forty digits or lower-case
hexadecimal letters, a form that carries no checksum. -/
def isLowerHexAddress (s : String) : Bool :=
  match s.toList with
  | '0' :: 'x' :: rest =>
    rest.length == 40 && rest.all fun c => isDecimalDigit c || (97 ≤ c.toNat && c.toNat ≤ 102)
  | _ => false

/-- A sample acting address. -/
def aliceAddress : String := "0x00000000000000000000000000000000000a11ce"

/-- A sample target address. -/
def bobAddress : String := "0x0000000000000000000000000000000000000b0b"

/-! ## The card over time -/

/-- A card over time. `card` is what the handlers close over in the current render;
`isVotingYes` and `isVotingNo` are the `useState` flags of the mounted instance; `mounted`
numbers the instances of the card (the pages list cards under `key={proposal.id}` and the
routes are keyed by path, so a card that leaves the list or the page and comes back is a new
instance); `pendingVotes` holds, for every vote write issued and not yet settled, its support
value and the instance that issued it. -/
structure CardRun where
  card : CardState
  isVotingYes : Bool
  isVotingNo : Bool
  mounted : Nat
  pendingVotes : List (Bool × Nat)

/-- The in-flight flag a vote button consults: `isVotingYes` for Vote Yes, `isVotingNo` for
Vote No. -/
def CardRun.inFlight (r : CardRun) (support : Bool) : Bool :=
  if support then r.isVotingYes else r.isVotingNo

/-- The `disabled` attribute of the Vote Yes (`support = true`) and Vote No buttons. -/
def voteButtonDisabled (r : CardRun) (support : Bool) : Bool :=
  r.inFlight support || truthy r.card.hasVoted || !truthy r.card.isCitizen ||
  isEnded r.card.proposal r.card.now || r.card.proposal.paused || r.card.proposal.executed ||
  truthy r.card.hasVetoed

/-- The action buttons are rendered only under
`!isEnded && !proposal.executed && !proposal.paused`. -/
def actionsShown (r : CardRun) : Bool :=
  !isEnded r.card.proposal r.card.now && !r.card.proposal.executed && !r.card.proposal.paused

/-- What can happen to a card: a click on a vote button; the settling of a vote issued by the
instance numbered `instance_` (`refetched` is the re-read `hasVoted` on success, `none` when the
vote failed); a new render with other props and hook values; the unmounting of the card followed
by the mounting of a new instance. -/
inductive CardEvent where
  | clickVote (support : Bool)
  | voteSettled (support : Bool) (instance_ : Nat) (refetched : Option ReadData)
  | rerender (card : CardState)
  | remount

/-- The vote write an event issues, if any. A click reaches `handleVote` only through a
rendered, enabled button, and `handleVote` itself consults no in-flight flag; when its guards
pass it issues the write before it first suspends. -/
def CardRun.issued (r : CardRun) : CardEvent → Option Bool
  | .clickVote support =>
    if !actionsShown r || voteButtonDisabled r support then none
    else if issuesWrite (handleVote r.card support allOk) then some support
    else none
  | _ => none

/-- One event on a card. A click that issues a write first raises the flag of its button.
Settling removes the write and stores the re-read `hasVoted` (the read cache is shared by all
instances); the last lines of the `try` and of the `catch` block lower both flags of the instance
that issued the vote, which has no effect on a later instance. A new instance starts with both
flags false, as `useState(false)` says, while outstanding writes stay outstanding. -/
def CardRun.step (r : CardRun) : CardEvent → CardRun
  | .clickVote support =>
    match r.issued (CardEvent.clickVote support) with
    | some _ =>
      { r with
        isVotingYes := r.isVotingYes || support
        isVotingNo := r.isVotingNo || !support
        pendingVotes := (support, r.mounted) :: r.pendingVotes }
    | none => r
  | .voteSettled support instance_ refetched =>
    if (support, instance_) ∈ r.pendingVotes then
      { card :=
          match refetched with
          | some hv => { r.card with hasVoted := hv }
          | none => r.card
        isVotingYes := if instance_ = r.mounted then false else r.isVotingYes
        isVotingNo := if instance_ = r.mounted then false else r.isVotingNo
        mounted := r.mounted
        pendingVotes := r.pendingVotes.erase (support, instance_) }
    else r
  | .rerender card => { r with card := card }
  | .remount =>
    { r with isVotingYes := false, isVotingNo := false, mounted := r.mounted + 1 }

/-- The support values of the vote writes issued along a run of events, in order. -/
def writesIssued : CardRun → List CardEvent → List Bool
  | _, [] => []
  | r, ev :: evs =>
    match r.issued ev with
    | some support => support :: writesIssued (r.step ev) evs
    | none => writesIssued (r.step ev) evs

/-- An event that leaves the flags of the instance numbered `current` as they are, apart from
raising one: a click, a new render, or the settling of a vote issued by another instance. -/
def CardEvent.keepsFlags (current : Nat) : CardEvent → Bool
  | .clickVote _ => true
  | .voteSettled _ instance_ _ => instance_ != current
  | .rerender _ => true
  | .remount => false

/-- A freshly mounted card for a citizen on an open, untouched proposal. -/
def idleCard : CardRun :=
  { card := flagState true false false false false false,
    isVotingYes := false, isVotingNo := false, mounted := 0, pendingVotes := [] }

/-! ## Aggregate statistics (Dashboard.jsx, Proposals.jsx) -/

/-- The value behind the Dashboard's "Active Proposals" tile:
`proposals.filter(p => !p.executed && !p.paused && p.endTime > now).length`. -/
def dashboardActiveCount (proposals : List Proposal) (now : Int) : Nat :=
  (proposals.filter fun p => !p.executed && !p.paused && decide (p.endTime > now)).length

/-- The record returned by `getStats` on the Proposals page. -/
structure Stats where
  active : Nat
  ended : Nat
  executed : Nat
  paused : Nat
  deriving DecidableEq, Repr

/-- The function `getStats` of the Proposals page. -/
def getStats (proposals : List Proposal) (now : Int) : Stats :=
  { active :=
      (proposals.filter fun p => !p.executed && !p.paused && decide (p.endTime > now)).length,
    ended :=
      (proposals.filter fun p => !p.executed && !p.paused && decide (p.endTime ≤ now)).length,
    executed := (proposals.filter fun p => p.executed).length,
    paused := (proposals.filter fun p => p.paused).length }

/-- The three proposals of the aggregate statistics scenario at the instant `now`; fields the
scenario leaves out are empty, zero or false. -/
def scenario (now : Int) : List Proposal :=
  [{ id := 1, description := "", category := 1, endTime := now - 10, targetAddress := "",
     allocatedAmount := "0", totalYesCredits := 0, totalNoCredits := 0, vetoVotes := 0,
     executed := false, paused := false },
   { id := 2, description := "", category := 1, endTime := now + 1000, targetAddress := "",
     allocatedAmount := "0", totalYesCredits := 5, totalNoCredits := 0, vetoVotes := 0,
     executed := false, paused := false },
   { id := 3, description := "", category := 1, endTime := now - 10, targetAddress := "",
     allocatedAmount := "0", totalYesCredits := 10, totalNoCredits := 2, vetoVotes := 0,
     executed := true, paused := false }]

/-- The two results the card can show for an executed proposal. -/
inductive ExecutionOutcome where
  | PASSED
  | FAILED
  deriving DecidableEq, Repr

/-- The "Result:" line of the card's Execution Status block: the block is rendered under
`isEnded`, the line under `proposal.executed`, and its text is
`totalYesCredits > totalNoCredits ? 'PASSED' : 'FAILED'`. `none` when no result is shown. -/
def displayedOutcome (p : Proposal) (now : Int) : Option ExecutionOutcome :=
  if isEnded p now then
    if p.executed then
      some (if p.totalYesCredits > p.totalNoCredits then ExecutionOutcome.PASSED
            else ExecutionOutcome.FAILED)
    else none
  else none

/-! ## Number arithmetic of the participation rate -/

/-- A finite non-negative Number kept exactly as `mant × 2 ^ exp`. -/
structure Dbl where
  mant : Nat
  exp : Int
  deriving DecidableEq, Repr

/-- Numerator of a `Dbl` written as a fraction over a power of two. -/
def Dbl.num (x : Dbl) : Nat :=
  x.mant * 2 ^ x.exp.toNat

/-- Denominator of a `Dbl` written as a fraction over a power of two. -/
def Dbl.den (x : Dbl) : Nat :=
  2 ^ (-x.exp).toNat

/-- The integer nearest to `a / b`, a tie going to the even neighbour. -/
def roundHalfEven (a b : Nat) : Nat :=
  let q := a / b
  let r := a % b
  if 2 * r < b then q
  else if b < 2 * r then q + 1
  else if q % 2 = 0 then q else q + 1

/-- The position of the highest set bit of a positive `n`; `fuel` bounds the halvings. -/
def floorLog2 : Nat → Nat → Nat
  | 0, _ => 0
  | fuel + 1, n => if n < 2 then 0 else 1 + floorLog2 fuel (n / 2)

/-- The exponent `e` with `2 ^ e ≤ a / b < 2 ^ (e + 1)`, for positive `a` and `b`. -/
def binade (a b : Nat) : Int :=
  let e0 : Int := (floorLog2 a a : Int) - (floorLog2 b b : Int)
  if b * 2 ^ e0.toNat ≤ a * 2 ^ (-e0).toNat then e0 else e0 - 1

/-- The Number nearest to the rational `a / b`: round to nearest, ties to even, on a 53-bit
significand. Exact for results in the normal range of the double format. -/
def toDouble (a b : Nat) : Dbl :=
  if a = 0 then { mant := 0, exp := 0 }
  else
    let t : Int := binade a b - 52
    { mant := roundHalfEven (a * 2 ^ (-t).toNat) (b * 2 ^ t.toNat), exp := t }

/-- The quotient `k / n` of two integer Numbers. -/
def fdiv (k n : Nat) : Dbl :=
  toDouble k n

/-- The product `x * c` of a Number and an integer Number. -/
def fmul (x : Dbl) (c : Nat) : Dbl :=
  toDouble (x.num * c) x.den

/-- The function `Math.round` on a non-negative Number, `floor (x + 1/2)`. -/
def mathRound (x : Dbl) : Nat :=
  (2 * x.num + x.den) / (2 * x.den)

/-- The expression `Math.round((k / n) * 100)` on integer Numbers `k` and `n`. -/
def ratePercent (k n : Nat) : Nat :=
  mathRound (fmul (fdiv k n) 100)

/-- The number inside the Dashboard's "Participation Rate" tile:
`Math.round((proposals.filter(p => p.totalYesCredits > 0 || p.totalNoCredits > 0).length
/ proposals.length) * 100)`. -/
def participationPercent (proposals : List Proposal) : Nat :=
  ratePercent
    (proposals.filter fun p => decide (p.totalYesCredits > 0) || decide (p.totalNoCredits > 0)).length
    proposals.length

/-- The text of the Dashboard's "Participation Rate" tile. -/
def participationRate (proposals : List Proposal) : String :=
  if proposals.length > 0 then toString (participationPercent proposals) ++ "%" else "0%"

/-- The rational `a / b` rounded to the nearest integer, a half going up. -/
def roundNearest (a b : Nat) : Nat :=
  (2 * a + b) / (2 * b)

/-! ## Assembly of the proposal lists (Dashboard.jsx, Proposals.jsx) -/

/-- The tuple `getProposal` returns, `proposal[0]` to `proposal[9]`, after the `Number(...)`
conversions of the pages. -/
structure ProposalFields where
  description : String
  category : Nat
  endTime : Int
  targetAddress : String
  allocatedAmount : String
  totalYesCredits : Nat
  totalNoCredits : Nat
  vetoVotes : Nat
  executed : Bool
  paused : Bool
  deriving DecidableEq, Repr

/-- One item of the `useReadContracts` data under `allowFailure: true`: `failure` is
`status === 'failure'`, and `result` is `none` when the item carries no result. -/
structure BatchItem where
  failure : Bool
  result : Option ProposalFields
  deriving DecidableEq, Repr

/-- The read behind an item succeeded: it carries a result and is not a failure. -/
def BatchItem.succeeded (item : BatchItem) : Bool :=
  item.result.isSome && !item.failure

/-- The object the pages build from a result tuple and an id. -/
def snapshot (id : Nat) (f : ProposalFields) : Proposal :=
  { id := id, description := f.description, category := f.category, endTime := f.endTime,
    targetAddress := f.targetAddress, allocatedAmount := f.allocatedAmount,
    totalYesCredits := f.totalYesCredits, totalNoCredits := f.totalNoCredits,
    vetoVotes := f.vetoVotes, executed := f.executed, paused := f.paused }

/-- The callback of `proposalsData.map((result, idx) => ...)`: `null` for an item without
result or with status failure, otherwise the snapshot with `id: proposalIds[idx]`. An index
past the end of the id list, which a batch result never has, reads as `0`. -/
def assembleItem (proposalIds : List Nat) (item : BatchItem) (idx : Nat) : Option Proposal :=
  match item.result with
  | none => none
  | some f => if item.failure then none else some (snapshot (proposalIds.getD idx 0) f)

/-- The method `map` with its index argument, counting from `idx`. -/
def mapIdxFrom {α β : Type} (f : α → Nat → β) : Nat → List α → List β
  | _, [] => []
  | idx, x :: xs => f x idx :: mapIdxFrom f (idx + 1) xs

/-- The list `loadedProposals` of the Proposals page:
`proposalsData.map(...).filter(Boolean)`. -/
def loadedProposals (proposalIds : List Nat) (proposalsData : List BatchItem) : List Proposal :=
  (mapIdxFrom (assembleItem proposalIds) 0 proposalsData).filterMap id

/-- The list `proposalIds` of the Proposals page: `1, ..., n`, empty while the count is
`undefined` or zero. -/
def proposalsPageIds (proposalsCount : Option Nat) : List Nat :=
  match proposalsCount with
  | some n => if n = 0 then [] else (List.range n).map fun i => i + 1
  | none => []

/-- The list `proposalIds` of the Dashboard: `n, n - 1, ...` for the last six proposals, sorted
with the comparator `(a, b) => b - a`; empty while the count is `undefined` or zero. -/
def dashboardProposalIds (proposalsCount : Option Nat) : List Nat :=
  match proposalsCount with
  | some n =>
    if n = 0 then []
    else ((List.range (min n 6)).map fun i => n - i).insertionSort fun a b => b ≤ a
  | none => []

/-- The list `loadedProposals` of the Dashboard: as on the Proposals page, then sorted with the
comparator `(a, b) => b.id - a.id`. -/
def dashboardLoadedProposals (proposalIds : List Nat) (proposalsData : List BatchItem) :
    List Proposal :=
  (loadedProposals proposalIds proposalsData).insertionSort fun a b => b.id ≤ a.id

/-- The proposals the Dashboard shows for a proposal count and the batch result of its reads. -/
def dashboardProposals (proposalsCount : Option Nat) (proposalsData : List BatchItem) :
    List Proposal :=
  dashboardLoadedProposals (dashboardProposalIds proposalsCount) proposalsData

/-- The proposals the Proposals page holds for a proposal count and the batch result of its
reads. -/
def pageProposals (proposalsCount : Option Nat) (proposalsData : List BatchItem) :
    List Proposal :=
  loadedProposals (proposalsPageIds proposalsCount) proposalsData

/-- The snapshot a position of a batch gives rise to: the fields read there under the id
at that position when the read succeeded, nothing when it failed. -/
def attributeItem (pair : Nat × BatchItem) : Option Proposal :=
  match pair.2.result with
  | some f => if pair.2.succeeded then some (snapshot pair.1 f) else none
  | none => none

/-- The snapshots the specification attributes to a batch: one for each position whose read
succeeded, carrying the id at that position, in the order of the positions. -/
def attributed (proposalIds : List Nat) (proposalsData : List BatchItem) : List Proposal :=
  (proposalIds.zip proposalsData).filterMap attributeItem

/-- A successful item with empty fields, for concrete runs. -/
def okItem : BatchItem :=
  { failure := false,
    result := some { description := "", category := 1, endTime := 0, targetAddress := "",
                     allocatedAmount := "0", totalYesCredits := 0, totalNoCredits := 0,
                     vetoVotes := 0, executed := false, paused := false } }

/-- A failed item. -/
def failedItem : BatchItem :=
  { failure := true, result := none }

/-! ## The filters of the Proposals page -/

/-- Value of a hexadecimal digit, if the code point is one. -/
def hexDigitValue (c : Char) : Option Nat :=
  if isDecimalDigit c then some (c.toNat - 48)
  else if 97 ≤ c.toNat && c.toNat ≤ 102 then some (c.toNat - 87)
  else if 65 ≤ c.toNat && c.toNat ≤ 70 then some (c.toNat - 55)
  else none

/-- The leading run of digits of the given radix, read as a number; `none` when it is empty. -/
def parseDigits (radix : Nat) (cs : List Char) : Option Nat :=
  let ds := cs.takeWhile fun c =>
    match hexDigitValue c with
    | some d => decide (d < radix)
    | none => false
  if ds.isEmpty then none
  else some (ds.foldl (fun acc c => radix * acc + (hexDigitValue c).getD 0) 0)

/-- The digits of `parseInt` after the sign: hexadecimal after a `0x` or `0X`, decimal
otherwise. -/
def parseIntUnsigned (cs : List Char) : Option Nat :=
  match cs with
  | c0 :: c1 :: rest =>
    if c0 == '0' && (c1 == 'x' || c1 == 'X') then parseDigits 16 rest else parseDigits 10 cs
  | _ => parseDigits 10 cs

/-- The global function `parseInt` with one argument; `none` is `NaN`. Exact below `2 ^ 53`. -/
def parseInt (s : String) : Option Int :=
  match s.toList.dropWhile isJSWhiteSpace with
  | c :: rest =>
    if c == '-' then (parseIntUnsigned rest).map fun n => - (n : Int)
    else if c == '+' then (parseIntUnsigned rest).map fun n => (n : Int)
    else (parseIntUnsigned (c :: rest)).map fun n => (n : Int)
  | [] => none

/-- The method `includes` on strings. -/
def includes (s t : String) : Bool :=
  s.toList.tails.any fun u => t.toList.isPrefixOf u

/-- The filter controls of the Proposals page. -/
structure PageFilters where
  searchTerm : String
  selectedCategory : String
  selectedStatus : String

/-- The `switch (selectedStatus)` of the status filter. -/
def matchesStatus (selectedStatus : String) (now : Int) (p : Proposal) : Bool :=
  if selectedStatus = "active" then !p.executed && !p.paused && decide (p.endTime > now)
  else if selectedStatus = "ended" then !p.executed && !p.paused && decide (p.endTime ≤ now)
  else if selectedStatus = "executed" then p.executed
  else if selectedStatus = "paused" then p.paused
  else true

/-- The list `filtered` the filter effect of the Proposals page stores in `filteredProposals`.
The parameter `lower` is the method `toLowerCase`, whose case mapping of a description is left
open. -/
def filterProposals (lower : String → String) (proposals : List Proposal) (f : PageFilters)
    (now : Int) : List Proposal :=
  let bySearch :=
    if f.searchTerm ≠ "" then
      proposals.filter fun p => includes (lower p.description) (lower f.searchTerm)
    else proposals
  let byCategory :=
    if f.selectedCategory ≠ "all" then
      bySearch.filter fun p => decide (parseInt f.selectedCategory = some (p.category : Int))
    else bySearch
  if f.selectedStatus ≠ "all" then byCategory.filter (matchesStatus f.selectedStatus now)
  else byCategory

/-- The filter controls as the page first renders them. -/
def noFilters : PageFilters :=
  { searchTerm := "", selectedCategory := "all", selectedStatus := "all" }

/-! ## Revoke, register and approve (Governance.jsx, Dashboard.jsx) -/

/-- The handler `handleRevoke()` of the Governance page: the flag is raised, the write awaited,
and the `catch` block reports and lowers the flag. -/
def handleRevoke (o : Outcomes) : List Effect :=
  [Effect.setFlag Flag.isRevoking true, Effect.writeContract "revokeDelegation" []] ++
  match o.write with
  | .error e =>
    [Effect.toastError (strOr e.message "Failed to revoke delegation"),
     Effect.setFlag Flag.isRevoking false]
  | .ok _ => []

/-- The text `${error.message}` of a template literal. -/
def messageText (e : JSError) : String :=
  e.message.getD "undefined"

/-- The handler `handleRegister()` of the Dashboard. -/
def handleRegister (o : Outcomes) : List Effect :=
  [Effect.setFlag Flag.isRegistering true, Effect.setRegisterError none,
   Effect.writeContract "registerCitizen" []] ++
  (match o.write with
   | .error e =>
     [Effect.setRegisterError e.message,
      Effect.toastError ("Failed to register: " ++ messageText e)]
   | .ok _ =>
     [Effect.toastSuccess "Successfully registered as citizen!", Effect.setIsCitizen true]) ++
  [Effect.setFlag Flag.isRegistering false]

/-- The `catch` block of `handleApprove`. -/
def approveCatch (e : JSError) : List Effect :=
  [Effect.consoleError "Approval error:",
   Effect.toastError ("Approval failed: " ++ messageText e)]

/-- The handler `handleApprove()` of the Dashboard; `spender` is the constant
`LIQUID_DEMOCRACY_ADDRESS` and the amount `ethers.constants.MaxUint256`. -/
def handleApprove (spender : String) (o : Outcomes) : List Effect :=
  [Effect.setFlag Flag.isApproving true,
   Effect.writeContract "approve" [Arg.str spender, Arg.num (2 ^ 256 - 1)]] ++
  (match o.write with
   | .error e => approveCatch e
   | .ok txHash =>
     Effect.waitForTransaction txHash ::
     match o.wait with
     | .error e => approveCatch e
     | .ok _ =>
       Effect.toastSuccess "CITY token approved!" :: Effect.refetch Refetch.allowance ::
       match o.refetched with
       | .error e => approveCatch e
       | .ok _ => []) ++
  [Effect.setFlag Flag.isApproving false]

/-! ## Properties of effect traces -/

/-- The value of an in-flight flag after a handler run that started with the value `init`. -/
def finalFlag (f : Flag) (init : Bool) (es : List Effect) : Bool :=
  es.foldl (fun cur e =>
    match e with
    | .setFlag g b => if g = f then b else cur
    | _ => cur) init

/-- An effect that reaches the ledger, asks for a re-read, or sets an in-flight flag. -/
def touchesLedgerOrFlags : Effect → Bool
  | .writeContract _ _ => true
  | .waitForTransaction _ => true
  | .refetch _ => true
  | .onProposalChanged => true
  | .setFlag _ _ => true
  | _ => false

/-- A request to re-read ledger state: a `refetch` of a hook or the `onProposalChanged`
callback, which is the page's `refetchProposals`. -/
def isRefresh : Effect → Bool
  | .refetch _ => true
  | .onProposalChanged => true
  | _ => false

/-- Scan of a trace: every refresh comes after a finality wait (`seen` tells whether one was
met before the part being scanned). -/
def refreshesFollowWait : Bool → List Effect → Bool
  | _, [] => true
  | seen, e :: es =>
    match e with
    | .waitForTransaction _ => refreshesFollowWait true es
    | _ => (!isRefresh e || seen) && refreshesFollowWait seen es

/-- Outcomes in which the write is rejected by the ledger. -/
def writeRejected : Outcomes :=
  { write := .error { reason := some "execution reverted", message := some "reverted" },
    wait := .ok (), refetched := .ok (), changed := some (.ok ()) }

/-- The refresh discipline of a handler run with outcomes `o` and trace `es`: a refresh is
requested only after the finality wait for the hash the write returned, in a run whose wait
succeeded, and no refresh is requested twice. -/
def RefreshOnlyAfterFinality (o : Outcomes) (es : List Effect) : Prop :=
  (∀ pre e post, es = pre ++ e :: post → isRefresh e = true →
    ∃ tx, Effect.waitForTransaction tx ∈ pre ∧ o.write = .ok tx ∧ o.wait = .ok ()) ∧
  (es.filter isRefresh).Nodup

/-! ## CreateProposal.jsx -/

/-- The state `formData` of the creation form. -/
structure FormData where
  description : String
  category : Nat
  duration : Nat
  targetCredits : String
  targetAddress : String
  allocatedAmount : String
  deriving DecidableEq, Repr

/-- The constant `ethers.constants.AddressZero`. -/
def addressZero : String := "0x0000000000000000000000000000000000000000"

/-- The function `handleInputChange(field, value)` for the category buttons: only the
category changes, every other field keeps its value. -/
def selectCategory (f : FormData) (category : Nat) : FormData :=
  { f with category := category }

/-- The test `error.message?.includes(text)`; false when there is no message. -/
def messageIncludes (e : JSError) (text : String) : Bool :=
  match e.message with
  | some m => includes m text
  | none => false

/-- The text the `catch` block of `handleSubmit` chooses. -/
def submitMessage (e : JSError) : String :=
  if messageIncludes e "Not a verified citizen" then
    "You must be a registered citizen to create proposals."
  else if messageIncludes e "revert" then
    "Transaction reverted. Please check your wallet and try again."
  else "An unexpected error occurred. Please try again."

/-- The `catch` block of `handleSubmit`. -/
def submitCatch (e : JSError) : List Effect :=
  [Effect.consoleError "Error creating proposal:", Effect.toastError (submitMessage e)]

/-- The handler `handleSubmit(e)` of the creation form. `isAddress` is
`ethers.utils.isAddress` and `parseEther` is `ethers.utils.parseEther`, which throws on a
string it cannot read; the argument list is built before the write is issued. -/
def handleSubmit (isAddress : String → Bool) (parseEther : String → Except JSError Nat)
    (f : FormData) (o : Outcomes) : List Effect :=
  if f.description.toList.all isJSWhiteSpace then
    [Effect.toastError "Please enter a proposal description"]
  else if f.category == 0 && (f.targetAddress == "" || !isAddress f.targetAddress) then
    [Effect.toastError "Please enter a valid target address for budget proposal"]
  else if f.category == 0 &&
      (f.allocatedAmount == "" || (parseFloat f.allocatedAmount).leZero) then
    [Effect.toastError "Please enter a valid allocated amount"]
  else
    Effect.setFlag Flag.isSubmitting true ::
    (match (if f.allocatedAmount == "" then Except.ok 0 else parseEther f.allocatedAmount) with
     | .error e => submitCatch e
     | .ok amount =>
       Effect.writeContract "createProposal"
         [Arg.str f.description, Arg.num f.category,
          Arg.str (if f.targetAddress == "" then addressZero else f.targetAddress),
          Arg.num amount] ::
       match o.write with
       | .error e => submitCatch e
       | .ok _ => [Effect.toastSuccess "Proposal created!", Effect.resetFormData]) ++
    [Effect.setFlag Flag.isSubmitting false]

/-- An instance of `parseEther` for concrete runs: a whole number of ether, in wei. -/
def parseWholeEther (s : String) : Except JSError Nat :=
  if isDigitRun s.toList then .ok (digitsValue s.toList * 10 ^ 18)
  else .error { reason := some "invalid decimal value", message := some "invalid decimal value" }

/-- A form filled in for a budget proposal. -/
def budgetForm : FormData :=
  { description := "Repair the bridge", category := 0, duration := 7, targetCredits := "1000",
    targetAddress := bobAddress, allocatedAmount := "5" }

/-- A write rejected by the ledger with the reason "Voting closed". -/
def rejectedVotingClosed : Outcomes :=
  { write := .error { reason := some "Voting closed",
                      message := some "execution reverted: Voting closed" },
    wait := .ok (), refetched := .ok (), changed := some (.ok ()) }

/-- The messages a handler run shows in error toasts, in order. -/
def surfaced (es : List Effect) : List String :=
  es.filterMap fun e =>
    match e with
    | .toastError msg => some msg
    | _ => none

/-- The run with outcomes `o` fails at the write or at the finality wait with an exception
whose `reason` is the non-empty string `r`. -/
def FailsWithReason (o : Outcomes) (r : String) : Prop :=
  r ≠ "" ∧
  ((∃ e, o.write = .error e ∧ e.reason = some r) ∨
   (∃ tx e, o.write = .ok tx ∧ o.wait = .error e ∧ e.reason = some r))

/-! ## The Dashboard's citizen flag -/

/-- The effect on `citizenStatus`: `if (citizenStatus !== undefined) setIsCitizen(citizenStatus)`,
as the value of the state `isCitizen` afterwards. -/
def citizenStatusEffect (isCitizen : Bool) (citizenStatus : ReadData) : Bool :=
  match citizenStatus with
  | some b => b
  | none => isCitizen

/-- The value of the Dashboard's `isCitizen` after a handler run that started with `init`. -/
def finalIsCitizen (init : Bool) (es : List Effect) : Bool :=
  es.foldl (fun cur e =>
    match e with
    | .setIsCitizen b => b
    | _ => cur) init

/-- An effect that starts a finality wait or requests a re-read. -/
def isWaitOrRefresh : Effect → Bool
  | .waitForTransaction _ => true
  | e => isRefresh e

/-! ## The proxy block of the Governance page -/

/-- The state `proxy` of the Governance page. -/
structure ProxyRecord where
  proxy : String
  expiry : Nat
  deriving DecidableEq, Repr

/-- The proxy effect: a defined `proxyData` is stored, then a read error clears the state. -/
def proxyEffect (proxy : Option ProxyRecord) (proxyData : Option (String × Nat))
    (proxyError : Bool) : Option ProxyRecord :=
  let afterData :=
    match proxyData with
    | some d => some { proxy := d.1, expiry := d.2 }
    | none => proxy
  if proxyError then none else afterData

/-- What the "Your Proxy" block shows. -/
inductive ProxyView where
  | loading
  | assigned (proxy : String) (expiry : Nat)
  | noProxyAssigned
  deriving DecidableEq, Repr

/-- The "Your Proxy" block:
`isLoadingProxy ? ... : proxy && proxy.proxy !== ethers.constants.AddressZero ? ... : ...`. -/
def proxyView (isLoadingProxy : Bool) (proxy : Option ProxyRecord) : ProxyView :=
  if isLoadingProxy then ProxyView.loading
  else
    match proxy with
    | some r =>
      if r.proxy ≠ addressZero then ProxyView.assigned r.proxy r.expiry
      else ProxyView.noProxyAssigned
    | none => ProxyView.noProxyAssigned

/-! ## Category names -/

/-- The names in the card's `categories` array, by index. -/
def cardCategories : List String :=
  ["Governance", "Infrastructure", "Policy", "Development"]

/-- The name the card shows: `(categories[proposal.category] || categories[0]).name`. -/
def cardCategoryName (category : Nat) : String :=
  (cardCategories[category]?).getD "Governance"

/-- The card's budget test, `proposal.category === 0`. -/
def isBudgetProposal (p : Proposal) : Bool :=
  p.category == 0

/-- The category options of the Proposals page filter, as id and name. -/
def filterCategories : List (String × String) :=
  [("all", "All Categories"), ("0", "Governance"), ("1", "Infrastructure"), ("2", "Policy"),
   ("3", "Development")]

/-- The name under which the Proposals page filter offers a category index. -/
def filterCategoryName (category : Nat) : Option String :=
  (filterCategories.find? fun c => parseInt c.1 == some (category : Int)).map fun c => c.2

/-- The `categories` array of the creation form, as id and name. -/
def formCategories : List (Nat × String) :=
  [(0, "Budget"), (1, "Policy"), (2, "Infrastructure"), (3, "Other")]

/-- The name under which the creation form offers a category index. -/
def formCategoryName (category : Nat) : Option String :=
  (formCategories.find? fun c => c.1 == category).map fun c => c.2

/-! ## Profile.jsx -/

/-- The state `proposals` of the Profile page, shown as its voting history. The effect that
builds it reads `proposalsData` and `proposalIds`; the results `votedData` and `vetoedData` of
the `hasVoted` and `hasVetoed` batch reads are destructured from their hooks and used nowhere. -/
def profileProposals (proposalIds : List Nat) (proposalsData : List BatchItem)
    (_votedData _vetoedData : List ReadData) : List Proposal :=
  loadedProposals proposalIds proposalsData

/-- The property `vote.voted` of a history entry: the object literal of the effect defines no
such property, so the read yields `undefined`. -/
def Proposal.voted (_vote : Proposal) : ReadData :=
  none

/-- The property `vote.vetoed` of a history entry, `undefined` for the same reason. -/
def Proposal.vetoed (_vote : Proposal) : ReadData :=
  none

/-- The label of a history entry: `vote.voted ? 'Voted' : vote.vetoed ? 'Vetoed' : ''`. -/
def historyLabel (vote : Proposal) : String :=
  if truthy vote.voted then "Voted" else if truthy vote.vetoed then "Vetoed" else ""

/-- The reputation effect: 10 or 5 points for an executed proposal according to `vote.voted`,
one point for every proposal, plus the delegation's reputation when there is one. -/
def reputationScore (proposals : List Proposal) (delegationReputation : Option Nat) : Nat :=
  proposals.foldl
    (fun score vote =>
      (if vote.executed then score + (if truthy vote.voted then 10 else 5) else score) + 1) 0
  + delegationReputation.getD 0

/-- The number behind the "Votes Cast" tile, `proposals.length`. -/
def votesCast (proposals : List Proposal) : Nat :=
  proposals.length

/-- A successful item for an executed proposal. -/
def executedItem : BatchItem :=
  { failure := false,
    result := some { description := "", category := 1, endTime := 0, targetAddress := "",
                     allocatedAmount := "0", totalYesCredits := 10, totalNoCredits := 2,
                     vetoVotes := 0, executed := true, paused := false } }

/-! ## Tooltips and the time label of the card -/

/-- The `title` of the Vote Yes and Vote No buttons. -/
def voteTitle (s : CardState) : String :=
  if !truthy s.isCitizen then "You must be a registered citizen to vote."
  else if isEnded s.proposal s.now then "Voting period has ended."
  else if s.proposal.paused then "Proposal is paused."
  else if s.proposal.executed then "Proposal already executed."
  else if truthy s.hasVetoed then "You have already vetoed this proposal."
  else if truthy s.hasVoted then "You have already voted on this proposal."
  else ""

/-- The `title` of the Veto button. -/
def vetoTitle (s : CardState) : String :=
  if !truthy s.isCitizen then "You must be a registered citizen to veto."
  else if isEnded s.proposal s.now then "Voting period has ended."
  else if s.proposal.paused then "Proposal is paused."
  else if s.proposal.executed then "Proposal already executed."
  else if truthy s.hasVoted then "You have already voted on this proposal."
  else if truthy s.hasVetoed then "You have already vetoed this proposal."
  else ""

/-- The three shapes of the "Time Left" label. -/
inductive TimeLabel where
  | ended
  | daysHours (days hours : Nat)
  | hours (hours : Nat)
  deriving DecidableEq, Repr

/-- The text of a "Time Left" label: `'Ended'`, `${days}d ${hours}h` or `${hours}h`. -/
def TimeLabel.text : TimeLabel → String
  | .ended => "Ended"
  | .daysHours d h => toString d ++ "d " ++ toString h ++ "h"
  | .hours h => toString h ++ "h"

/-- The function `getTimeRemaining()` of the card. -/
def getTimeRemaining (p : Proposal) (now : Int) : TimeLabel :=
  let remaining := p.endTime - now
  if remaining ≤ 0 then TimeLabel.ended
  else
    let days := remaining.toNat / 86400
    let hours := (remaining.toNat % 86400) / 3600
    if days > 0 then TimeLabel.daysHours days hours else TimeLabel.hours hours

/-- The vote and veto controls are rendered under
`!isEnded && !proposal.executed && !proposal.paused`. -/
def controlsShown (p : Proposal) (now : Int) : Bool :=
  !isEnded p now && !p.executed && !p.paused

/-! ## Helper lemmas -/

theorem truthy_eq_true {x : ReadData} : truthy x = true ↔ x = some true := by
  rcases x with _ | _ | _ <;> simp [truthy]

theorem parseFloat_empty : parseFloat "" = JSNumber.nan := by
  rfl

theorem creditsInvalid_of_gtZero {v : String} (h : (parseFloat v).gtZero = true) :
    creditsInvalid v = false := by
  have hne : v ≠ "" := by
    rintro rfl
    rw [parseFloat_empty] at h
    simp [JSNumber.gtZero] at h
  unfold creditsInvalid
  cases hp : parseFloat v with
  | nan => simp [hne, JSNumber.leZero]
  | infinity neg =>
    rw [hp] at h
    cases neg <;> simp_all [JSNumber.gtZero, JSNumber.leZero]
  | decimal neg mant exp =>
    rw [hp] at h
    generalize hr : roundsToZero mant exp = r at h
    cases neg <;> cases r <;> simp_all [JSNumber.gtZero, JSNumber.leZero]

theorem issuesWrite_toastError (msg : String) :
    issuesWrite [Effect.toastError msg] = false := by
  rfl

theorem issuesWrite_voteSubmit (s : CardState) (support : Bool) (o : Outcomes) :
    issuesWrite (voteSubmit s support o) = true := by
  simp [issuesWrite, voteSubmit]

theorem issuesWrite_vetoSubmit (s : CardState) (o : Outcomes) :
    issuesWrite (vetoSubmit s o) = true := by
  simp [issuesWrite, vetoSubmit]

theorem digit_not_ws {c : Char} (h : isDecimalDigit c = true) : isJSWhiteSpace c = false := by
  simp only [isDecimalDigit, Bool.and_eq_true, decide_eq_true_eq] at h
  simp only [isJSWhiteSpace]
  simp
  omega

theorem validUnsigned_head {cs : List Char} (h : validUnsigned cs = true) :
    ∃ c t, cs = c :: t ∧ (isDecimalDigit c = true ∨ c = '.') := by
  cases cs with
  | nil => simp [validUnsigned] at h
  | cons c t =>
    refine ⟨c, t, rfl, ?_⟩
    by_cases hc : isDecimalDigit c = true
    · exact Or.inl hc
    · right
      simp only [validUnsigned, List.takeWhile_cons, List.dropWhile_cons, hc] at h
      by_cases hdot : c = '.'
      · exact hdot
      · simp [hdot] at h

theorem parseUnsigned_of_valid (neg : Bool) {cs : List Char} (h : validUnsigned cs = true) :
    ∃ mant exp, parseUnsigned neg cs = JSNumber.decimal neg mant exp := by
  obtain ⟨c, t, rfl, hc⟩ := validUnsigned_head h
  have hinf : "Infinity".toList.isPrefixOf (c :: t) = false := by
    have : "Infinity".toList = 'I' :: "nfinity".toList := rfl
    rw [this, List.isPrefixOf]
    rcases hc with hc | rfl
    · have : ( 'I' == c) = false := by
        rw [beq_eq_false_iff_ne]
        rintro rfl
        exact absurd hc (by decide)
      simp [this]
    · have : ( 'I' == '.') = false := by decide
      simp [this]
  unfold parseUnsigned
  rw [hinf]
  unfold validUnsigned at h
  simp only [Bool.false_eq_true, ↓reduceIte]
  revert h
  cases hd : List.dropWhile isDecimalDigit (c :: t) with
  | nil =>
    intro h
    simp only [Bool.not_eq_true', List.isEmpty_eq_false] at h
    exact ⟨_, _, if_neg (by simp [h])⟩
  | cons d rest =>
    intro h
    simp only at h ⊢
    by_cases hdot : (d == '.') = true
    · rw [if_pos hdot] at h ⊢
      simp only [Bool.and_eq_true, Bool.not_eq_true'] at h
      exact ⟨_, _, if_neg (by simp [h.1])⟩
    · rw [if_neg hdot] at h ⊢
      simp only [Bool.and_eq_true, Bool.not_eq_true'] at h
      exact ⟨_, _, if_neg (by simp [h.1])⟩

theorem parseFloat_of_valid {v : String} (h : isValidFloatingPointNumber v = true) :
    ∃ neg mant exp, parseFloat v = JSNumber.decimal neg mant exp := by
  unfold isValidFloatingPointNumber at h
  unfold parseFloat
  cases hv : v.toList with
  | nil =>
    rw [hv] at h
    cases h
  | cons c rest =>
    rw [hv] at h
    simp only at h
    by_cases hm : (c == '-') = true
    · rw [if_pos hm] at h
      have hc : c = '-' := by simpa using hm
      subst hc
      have hws : isJSWhiteSpace '-' = false := by decide
      have hplus : ( '-' == '+') = false := by decide
      simp only [List.dropWhile_cons, hws, Bool.false_eq_true, ↓reduceIte, hplus, hm]
      obtain ⟨m, e, hme⟩ := parseUnsigned_of_valid true h
      exact ⟨true, m, e, hme⟩
    · rw [if_neg hm] at h
      obtain ⟨c2, t, hct, hc⟩ := validUnsigned_head h
      obtain ⟨rfl, rfl⟩ := List.cons.inj hct
      have hws : isJSWhiteSpace c = false := by
        rcases hc with hc | rfl
        · exact digit_not_ws hc
        · decide
      have hplus : (c == '+') = false := by
        rcases hc with hc | rfl
        · rw [beq_eq_false_iff_ne]
          rintro rfl
          exact absurd hc (by decide)
        · decide
      simp only [List.dropWhile_cons, hws, Bool.false_eq_true, ↓reduceIte, hplus, hm]
      obtain ⟨m, e, hme⟩ := parseUnsigned_of_valid false h
      exact ⟨false, m, e, hme⟩

theorem leZero_decimal (neg : Bool) (mant : Nat) (exp : Int) :
    (JSNumber.decimal neg mant exp).leZero = !(JSNumber.decimal neg mant exp).gtZero := by
  simp only [JSNumber.leZero, JSNumber.gtZero]
  by_cases hm : mant = 0 <;> cases neg <;> cases roundsToZero mant exp <;> simp [hm, bne]

theorem valid_ne_empty {v : String} (h : isValidFloatingPointNumber v = true) : v ≠ "" := by
  rintro rfl
  exact absurd h (by decide)

theorem creditsInvalid_numberInputValue (entry : String) :
    creditsInvalid (numberInputValue entry) = !positiveEntry entry := by
  unfold numberInputValue positiveEntry
  cases hv : isValidFloatingPointNumber entry with
  | false => rfl
  | true =>
    obtain ⟨neg, mant, exp, hp⟩ := parseFloat_of_valid hv
    have hne := valid_ne_empty hv
    simp only [↓reduceIte, creditsInvalid, hp, leZero_decimal, Bool.true_and]
    simp [hne]

theorem issued_clickVote (r : CardRun) (c : Bool) :
    r.issued (CardEvent.clickVote c) =
      if (!actionsShown r || voteButtonDisabled r c) = true then none
      else if issuesWrite (handleVote r.card c allOk) = true then some c
      else none := by
  rfl

theorem issued_of_inFlight (r : CardRun) (b : Bool) (h : r.inFlight b = true) :
    r.issued (CardEvent.clickVote b) = none := by
  rw [issued_clickVote]
  have hd : voteButtonDisabled r b = true := by simp [voteButtonDisabled, h]
  simp [hd]

theorem issued_eq_some (r : CardRun) (ev : CardEvent) (c : Bool) (h : r.issued ev = some c) :
    ev = CardEvent.clickVote c ∧ r.inFlight c = false := by
  cases ev with
  | clickVote d =>
    rw [issued_clickVote] at h
    by_cases hs : (!actionsShown r || voteButtonDisabled r d) = true
    · simp [hs] at h
    · by_cases hw : issuesWrite (handleVote r.card d allOk) = true
      · simp only [hs, hw, ↓reduceIte, Bool.false_eq_true, Option.some.injEq] at h
        subst h
        refine ⟨rfl, ?_⟩
        cases hf : r.inFlight d
        · rfl
        · exfalso
          apply hs
          simp [voteButtonDisabled, hf]
      · simp [hs, hw] at h
  | voteSettled d i rf => simp [CardRun.issued] at h
  | rerender card => simp [CardRun.issued] at h
  | remount => simp [CardRun.issued] at h

theorem step_keeps_inFlight (r : CardRun) (b : Bool) (ev : CardEvent)
    (h : r.inFlight b = true) (hk : ev.keepsFlags r.mounted = true) :
    (r.step ev).inFlight b = true ∧ (r.step ev).mounted = r.mounted ∧ r.issued ev ≠ some b := by
  have hne : r.issued ev ≠ some b := by
    intro hi
    have := (issued_eq_some r ev b hi).2
    rw [h] at this
    cases this
  refine ⟨?_, ?_, hne⟩
  · cases ev with
    | clickVote c =>
      simp only [CardRun.step]
      cases hi : r.issued (CardEvent.clickVote c) with
      | none => exact h
      | some d =>
        revert h
        unfold CardRun.inFlight
        cases b <;> cases c <;> simp_all
    | voteSettled c i rf =>
      simp only [CardEvent.keepsFlags, bne_iff_ne, ne_eq] at hk
      simp only [CardRun.step]
      split_ifs
      · revert h
        unfold CardRun.inFlight
        simp [hk]
      · exact h
    | rerender card => exact h
    | remount => simp [CardEvent.keepsFlags] at hk
  · cases ev with
    | clickVote c =>
      simp only [CardRun.step]
      cases hi : r.issued (CardEvent.clickVote c) <;> rfl
    | voteSettled c i rf =>
      simp only [CardRun.step]
      split_ifs <;> rfl
    | rerender card => rfl
    | remount => simp [CardEvent.keepsFlags] at hk

theorem run_keeps_inFlight (b : Bool) (evs : List CardEvent) :
    ∀ r : CardRun, r.inFlight b = true → (∀ ev ∈ evs, ev.keepsFlags r.mounted = true) →
      (evs.foldl CardRun.step r).inFlight b = true ∧ b ∉ writesIssued r evs := by
  induction evs with
  | nil =>
    intro r h _
    exact ⟨h, by simp [writesIssued]⟩
  | cons ev rest ih =>
    intro r h hk
    obtain ⟨h1, h2, h3⟩ := step_keeps_inFlight r b ev h (hk ev (List.mem_cons_self _ _))
    have hk2 : ∀ e ∈ rest, e.keepsFlags (r.step ev).mounted = true := by
      intro e he
      rw [h2]
      exact hk e (List.mem_cons_of_mem _ he)
    obtain ⟨h4, h5⟩ := ih (r.step ev) h1 hk2
    refine ⟨by simpa [List.foldl_cons] using h4, ?_⟩
    simp only [writesIssued]
    cases hi : r.issued ev with
    | none => exact h5
    | some c =>
      simp only [List.mem_cons, not_or]
      refine ⟨?_, h5⟩
      rintro rfl
      exact h3 hi

theorem ratePercent_small :
    ∀ n < 7, ∀ k < 7, 0 < n → k ≤ n →
      ratePercent k n = roundNearest (100 * k) n ∧ ratePercent k n ≤ 100 := by
  decide

theorem attributeItem_ok (i : Nat) (f : ProposalFields) :
    attributeItem (i, { failure := false, result := some f }) = some (snapshot i f) := by
  rfl

theorem attributeItem_failure (i : Nat) (r : Option ProposalFields) :
    attributeItem (i, { failure := true, result := r }) = none := by
  cases r <;> rfl

theorem attributeItem_none (i : Nat) (fl : Bool) :
    attributeItem (i, { failure := fl, result := none }) = none := by
  rfl

theorem mapIdxFrom_attributed (ids : List Nat) :
    ∀ (data : List BatchItem) (k : Nat), k + data.length ≤ ids.length →
      (mapIdxFrom (assembleItem ids) k data).filterMap id = attributed (ids.drop k) data := by
  intro data
  induction data with
  | nil => intro k _; simp [mapIdxFrom, attributed]
  | cons item rest ih =>
    intro k hk
    have hlt : k < ids.length := by
      simp only [List.length_cons] at hk
      omega
    have hrest : k + 1 + rest.length ≤ ids.length := by
      simp only [List.length_cons] at hk
      omega
    have hdrop : ids.drop k = ids[k] :: ids.drop (k + 1) := List.drop_eq_getElem_cons hlt
    have ih2 := ih (k + 1) hrest
    unfold attributed at ih2 ⊢
    rw [hdrop, List.zip_cons_cons, List.filterMap_cons, mapIdxFrom, List.filterMap_cons, ih2]
    have hget2 : ids[k]?.getD 0 = ids[k] := by
      simp [List.getElem?_eq_getElem hlt]
    rcases item with ⟨fl, _ | f⟩ <;> cases fl <;>
      simp [assembleItem, hget2, attributeItem_ok, attributeItem_failure, attributeItem_none]

theorem loadedProposals_eq_attributed (ids : List Nat) (data : List BatchItem)
    (h : data.length = ids.length) : loadedProposals ids data = attributed ids data := by
  have := mapIdxFrom_attributed ids data 0 (by omega)
  simpa [loadedProposals] using this

theorem attributed_length (ids : List Nat) :
    ∀ data : List BatchItem, data.length = ids.length →
      (attributed ids data).length = data.countP BatchItem.succeeded := by
  induction ids with
  | nil =>
    intro data h
    have : data = [] := List.length_eq_zero.mp h
    subst this
    rfl
  | cons i ids ih =>
    intro data h
    cases data with
    | nil => simp at h
    | cons item rest =>
      have hr : rest.length = ids.length := by simpa using h
      have ih2 := ih rest hr
      unfold attributed at ih2 ⊢
      rw [List.zip_cons_cons, List.filterMap_cons, List.countP_cons]
      rcases item with ⟨fl, _ | f⟩ <;> cases fl <;>
        simp [ih2, BatchItem.succeeded, attributeItem_ok, attributeItem_failure,
          attributeItem_none]

theorem attributed_ids_sublist (ids : List Nat) :
    ∀ data : List BatchItem, ((attributed ids data).map Proposal.id).Sublist ids := by
  induction ids with
  | nil => intro data; simp [attributed]
  | cons i ids ih =>
    intro data
    cases data with
    | nil => simp [attributed]
    | cons item rest =>
      have ih2 := ih rest
      unfold attributed at ih2 ⊢
      rw [List.zip_cons_cons, List.filterMap_cons]
      rcases item with ⟨fl, _ | f⟩ <;> cases fl
      · simpa [attributeItem_none] using ih2.trans (List.sublist_cons_self i ids)
      · simpa [attributeItem_none] using ih2.trans (List.sublist_cons_self i ids)
      · simpa [attributeItem_ok, snapshot] using ih2
      · simpa [attributeItem_failure] using ih2.trans (List.sublist_cons_self i ids)

theorem descending_range (n m : Nat) (h : m ≤ n) :
    ((List.range m).map fun i => n - i).Pairwise (fun a b => b < a) := by
  rw [List.pairwise_map]
  have hr : (List.range m).Pairwise (fun a b => a < b) := List.pairwise_lt_range m
  refine hr.imp_of_mem ?_
  intro a b ha hb hab
  have hb2 : b < m := List.mem_range.mp hb
  omega

theorem ascending_range (n : Nat) :
    ((List.range n).map fun i => i + 1).Pairwise (fun a b => a < b) := by
  rw [List.pairwise_map]
  exact (List.pairwise_lt_range n).imp (by intro a b hab; omega)

theorem dashboardProposalIds_descending (count : Option Nat) :
    (dashboardProposalIds count).Pairwise (fun a b => b < a) := by
  unfold dashboardProposalIds
  rcases count with _ | n
  · exact List.Pairwise.nil
  · by_cases hn : n = 0
    · simp [hn]
    · simp only [hn, ↓reduceIte]
      have hd := descending_range n (min n 6) (Nat.min_le_left n 6)
      have hs : List.Sorted (fun a b => b ≤ a) ((List.range (min n 6)).map fun i => n - i) :=
        hd.imp (by intro a b hab; exact Nat.le_of_lt hab)
      rw [List.Sorted.insertionSort_eq hs]
      exact hd

theorem dashboardProposalIds_length (count : Option Nat) :
    (dashboardProposalIds count).length ≤ 6 := by
  unfold dashboardProposalIds
  rcases count with _ | n
  · simp
  · by_cases hn : n = 0
    · simp [hn]
    · simp only [hn, ↓reduceIte, List.length_insertionSort, List.length_map, List.length_range]
      exact Nat.min_le_right n 6

theorem proposalsPageIds_ascending (count : Option Nat) :
    (proposalsPageIds count).Pairwise (fun a b => a < b) := by
  unfold proposalsPageIds
  rcases count with _ | n
  · exact List.Pairwise.nil
  · by_cases hn : n = 0
    · simp [hn]
    · simp only [hn, ↓reduceIte]
      exact ascending_range n

theorem dashboardLoaded_of_descending (ids : List Nat) (data : List BatchItem)
    (h : data.length = ids.length) (hd : ids.Pairwise (fun a b => b < a)) :
    dashboardLoadedProposals ids data = attributed ids data ∧
    ((attributed ids data).map Proposal.id).Pairwise (fun a b => b < a) := by
  have hp := hd.sublist (attributed_ids_sublist ids data)
  have hs : List.Sorted (fun a b : Proposal => b.id ≤ a.id) (attributed ids data) :=
    (List.pairwise_map.mp hp).imp (by intro a b hab; exact Nat.le_of_lt hab)
  refine ⟨?_, hp⟩
  unfold dashboardLoadedProposals
  rw [loadedProposals_eq_attributed ids data h, List.Sorted.insertionSort_eq hs]

theorem participationPercent_scenario (now : Int) : participationPercent (scenario now) = 67 := by
  have h : ratePercent 2 3 = 67 := by decide
  simpa [participationPercent, scenario] using h

theorem filterProposals_sublist (lower : String → String) (proposals : List Proposal)
    (f : PageFilters) (now : Int) :
    (filterProposals lower proposals f now).Sublist proposals := by
  unfold filterProposals
  simp only
  split_ifs
  · exact ((List.filter_sublist _).trans (List.filter_sublist _)).trans (List.filter_sublist _)
  · exact (List.filter_sublist _).trans (List.filter_sublist _)
  · exact (List.filter_sublist _).trans (List.filter_sublist _)
  · exact List.filter_sublist _
  · exact (List.filter_sublist _).trans (List.filter_sublist _)
  · exact List.filter_sublist _
  · exact List.filter_sublist _
  · exact List.Sublist.refl _

theorem handleVote_cases (s : CardState) (support : Bool) (o : Outcomes) :
    handleVote s support o = voteSubmit s support o ∨
    ∃ msg, handleVote s support o = [Effect.toastError msg] := by
  unfold handleVote
  split_ifs <;> simp

theorem handleVeto_cases (s : CardState) (o : Outcomes) :
    handleVeto s o = vetoSubmit s o ∨ ∃ msg, handleVeto s o = [Effect.toastError msg] := by
  unfold handleVeto
  split_ifs <;> simp

theorem refreshesFollowWait_sound :
    ∀ (es : List Effect) (seen : Bool), refreshesFollowWait seen es = true →
      ∀ (pre : List Effect) (e : Effect) (post : List Effect), es = pre ++ e :: post →
        isRefresh e = true → seen = true ∨ ∃ tx, Effect.waitForTransaction tx ∈ pre := by
  intro es
  induction es with
  | nil =>
    intro seen _ pre e post h
    cases pre <;> simp at h
  | cons x xs ih =>
    intro seen hs pre e post h he
    cases pre with
    | nil =>
      simp only [List.nil_append, List.cons.injEq] at h
      obtain ⟨rfl, rfl⟩ := h
      left
      cases x <;> simp_all [refreshesFollowWait, isRefresh]
    | cons p pre2 =>
      simp only [List.cons_append, List.cons.injEq] at h
      obtain ⟨rfl, rfl⟩ := h
      cases x with
      | waitForTransaction tx =>
        right
        exact ⟨tx, List.mem_cons_self _ _⟩
      | _ =>
        simp only [refreshesFollowWait, Bool.and_eq_true] at hs
        rcases ih seen hs.2 pre2 e post rfl he with h1 | ⟨tx, h2⟩
        · exact Or.inl h1
        · exact Or.inr ⟨tx, List.mem_cons_of_mem _ h2⟩

theorem refreshOnly_of_checks (o : Outcomes) (es : List Effect)
    (h1 : refreshesFollowWait false es = true)
    (h2 : ∀ tx, Effect.waitForTransaction tx ∈ es → o.write = .ok tx)
    (h3 : es.any isRefresh = true → o.wait = .ok ())
    (h4 : (es.filter isRefresh).Nodup) : RefreshOnlyAfterFinality o es := by
  refine ⟨?_, h4⟩
  intro pre e post hes he
  rcases refreshesFollowWait_sound es false h1 pre e post hes he with hf | ⟨tx, htx⟩
  · cases hf
  · refine ⟨tx, htx, h2 tx ?_, h3 ?_⟩
    · rw [hes]
      exact List.mem_append_left _ htx
    · rw [List.any_eq_true]
      exact ⟨e, by rw [hes]; simp, he⟩

theorem refreshOnly_toast (o : Outcomes) (msg : String) :
    RefreshOnlyAfterFinality o [Effect.toastError msg] := by
  apply refreshOnly_of_checks <;> simp [refreshesFollowWait, isRefresh]

theorem voteSubmit_refresh (s : CardState) (support : Bool) (o : Outcomes) :
    RefreshOnlyAfterFinality o (voteSubmit s support o) := by
  rcases o with ⟨w, wt, r, c⟩
  apply refreshOnly_of_checks <;>
    rcases w with e | tx <;> rcases wt with e | u <;> rcases r with e | u <;>
    rcases c with _ | e | u <;>
    simp [voteSubmit, voteCatch, refreshesFollowWait, isRefresh]

theorem vetoSubmit_refresh (s : CardState) (o : Outcomes) :
    RefreshOnlyAfterFinality o (vetoSubmit s o) := by
  rcases o with ⟨w, wt, r, c⟩
  apply refreshOnly_of_checks <;>
    rcases w with e | tx <;> rcases wt with e | u <;> rcases r with e | u <;>
    rcases c with _ | e | u <;>
    simp [vetoSubmit, vetoCatch, refreshesFollowWait, isRefresh]

theorem handleDelegate_refresh (isAddress : String → Bool) (g : GovState) (o : Outcomes) :
    RefreshOnlyAfterFinality o (handleDelegate isAddress g o) := by
  unfold handleDelegate
  split_ifs
  · exact refreshOnly_toast o _
  · exact refreshOnly_toast o _
  · rcases o with ⟨w, wt, r, c⟩
    apply refreshOnly_of_checks <;>
      rcases w with e | tx <;> rcases wt with e | u <;> rcases r with e | u <;>
      simp [delegateCatch, refreshesFollowWait, isRefresh]

theorem handleAssignProxy_refresh (isAddress : String → Bool) (g : GovState) (o : Outcomes) :
    RefreshOnlyAfterFinality o (handleAssignProxy isAddress g o) := by
  unfold handleAssignProxy
  split_ifs
  · exact refreshOnly_toast o _
  · exact refreshOnly_toast o _
  · rcases o with ⟨w, wt, r, c⟩
    apply refreshOnly_of_checks <;>
      rcases w with e | tx <;> rcases wt with e | u <;> rcases r with e | u <;>
      simp [assignProxyCatch, refreshesFollowWait, isRefresh]

theorem finalFlag_voteSubmit (s : CardState) (support : Bool) (o : Outcomes) (f : Flag)
    (hf : f = Flag.isVotingYes ∨ f = Flag.isVotingNo) :
    finalFlag f false (voteSubmit s support o) = false := by
  rcases o with ⟨w, wt, r, c⟩
  rcases hf with rfl | rfl <;> cases support <;>
    rcases w with e | tx <;> rcases wt with e | u <;> rcases r with e | u <;>
    rcases c with _ | e | u <;>
    simp [voteSubmit, voteCatch, finalFlag]

theorem finalFlag_vetoSubmit (s : CardState) (o : Outcomes) :
    finalFlag Flag.isVetoing false (vetoSubmit s o) = false := by
  rcases o with ⟨w, wt, r, c⟩
  rcases w with e | tx <;> rcases wt with e | u <;> rcases r with e | u <;>
    rcases c with _ | e | u <;>
    simp [vetoSubmit, vetoCatch, finalFlag]

theorem dashboardProposals_length_le_six (proposalsCount : Option Nat)
    (proposalsData : List BatchItem)
    (h : proposalsData.length = (dashboardProposalIds proposalsCount).length) :
    (dashboardProposals proposalsCount proposalsData).length ≤ 6 := by
  have hd := dashboardProposalIds_descending proposalsCount
  have hl := dashboardLoaded_of_descending (dashboardProposalIds proposalsCount) proposalsData h hd
  have hlen := attributed_length (dashboardProposalIds proposalsCount) proposalsData h
  have h6 := dashboardProposalIds_length proposalsCount
  have hc : proposalsData.countP BatchItem.succeeded ≤ proposalsData.length :=
    List.countP_le_length _
  unfold dashboardProposals
  rw [hl.1, hlen]
  omega

theorem filter_lengths_partition {α : Type} (f1 f2 f3 f4 : α → Bool) :
    ∀ l : List α,
      (∀ p ∈ l, (f1 p).toNat + (f2 p).toNat + (f3 p).toNat + (f4 p).toNat = 1) →
      (l.filter f1).length + (l.filter f2).length + (l.filter f3).length +
        (l.filter f4).length = l.length := by
  intro l
  induction l with
  | nil => intro _; rfl
  | cons p ps ih =>
    intro h
    have hp := h p (List.mem_cons_self _ _)
    have ih2 := ih (fun q hq => h q (List.mem_cons_of_mem _ hq))
    simp only [List.filter_cons, List.length_cons]
    cases h1 : f1 p <;> cases h2 : f2 p <;> cases h3 : f3 p <;> cases h4 : f4 p <;>
      simp [h1, h2, h3, h4] at hp ⊢ <;> omega

theorem getStats_conditions (p : Proposal) (now : Int)
    (h : ¬ (p.executed = true ∧ p.paused = true)) :
    (!p.executed && !p.paused && decide (p.endTime > now)).toNat +
      (!p.executed && !p.paused && decide (p.endTime ≤ now)).toNat +
      p.executed.toNat + p.paused.toNat = 1 := by
  by_cases ht : p.endTime > now
  · have ht2 : ¬ p.endTime ≤ now := by omega
    cases he : p.executed <;> cases hpa : p.paused <;> simp_all
  · have ht2 : p.endTime ≤ now := by omega
    cases he : p.executed <;> cases hpa : p.paused <;> simp_all

theorem getStats_partition_aux (now : Int) (proposals : List Proposal)
    (h : ∀ p ∈ proposals, ¬ (p.executed = true ∧ p.paused = true)) :
    (getStats proposals now).active + (getStats proposals now).ended +
      (getStats proposals now).executed + (getStats proposals now).paused =
      proposals.length := by
  unfold getStats
  exact filter_lengths_partition _ _ _ _ proposals
    (fun p hp => getStats_conditions p now (h p hp))

theorem surfaced_voteSubmit (s : CardState) (support : Bool) (o : Outcomes) (r : String)
    (h : FailsWithReason o r) : surfaced (voteSubmit s support o) = [r] := by
  obtain ⟨hne, h⟩ := h
  rcases o with ⟨w, wt, rf, c⟩
  rcases h with ⟨e, hw, hr⟩ | ⟨tx, e, hw, hwt, hr⟩
  · simp only at hw
    subst hw
    simp [voteSubmit, voteCatch, surfaced, strOr, hr, hne]
  · simp only at hw hwt
    subst hw
    subst hwt
    simp [voteSubmit, voteCatch, surfaced, strOr, hr, hne]

theorem surfaced_vetoSubmit (s : CardState) (o : Outcomes) (r : String)
    (h : FailsWithReason o r) : surfaced (vetoSubmit s o) = [r] := by
  obtain ⟨hne, h⟩ := h
  rcases o with ⟨w, wt, rf, c⟩
  rcases h with ⟨e, hw, hr⟩ | ⟨tx, e, hw, hwt, hr⟩
  · simp only at hw
    subst hw
    simp [vetoSubmit, vetoCatch, surfaced, strOr, hr, hne]
  · simp only at hw hwt
    subst hw
    subst hwt
    simp [vetoSubmit, vetoCatch, surfaced, strOr, hr, hne]

theorem submitMessage_fixed (e : JSError) :
    submitMessage e = "You must be a registered citizen to create proposals." ∨
    submitMessage e = "Transaction reverted. Please check your wallet and try again." ∨
    submitMessage e = "An unexpected error occurred. Please try again." := by
  unfold submitMessage
  split_ifs <;> simp

theorem surfaced_handleSubmit (isAddress : String → Bool)
    (parseEther : String → Except JSError Nat) (f : FormData) (o : Outcomes) (e : JSError)
    (hw : o.write = .error e)
    (hi : issuesWrite (handleSubmit isAddress parseEther f o) = true) :
    surfaced (handleSubmit isAddress parseEther f o) = [submitMessage e] := by
  rcases o with ⟨w, wt, rf, c⟩
  simp only at hw
  subst hw
  revert hi
  unfold handleSubmit
  generalize (if (f.allocatedAmount == "") = true then Except.ok 0
    else parseEther f.allocatedAmount) = pe
  generalize (if (f.targetAddress == "") = true then addressZero else f.targetAddress) = ta
  split_ifs
  · simp [issuesWrite]
  · simp [issuesWrite]
  · simp [issuesWrite]
  · rcases pe with e2 | amount
    · simp [issuesWrite, submitCatch]
    · simp [surfaced, submitCatch]

/-! ## Precedence of the eligibility rules -/

/-- C1: with a positive credits entry, `handleVote` reports exactly one denial, that of the first
true predicate in the order not a citizen, ended, paused, executed, vetoed, voted; it submits the
vote exactly when none of the six holds; and with paused and executed both true the reason is
never the executed one (it is the paused one for a citizen before the end). -/
theorem handleVote_first_denial (s : CardState) (support : Bool) (o : Outcomes)
    (hc : (parseFloat s.voteCredits).gtZero = true) :
    (match firstDenial (voteRules s) with
     | some d => handleVote s support o = [Effect.toastError (voteMessage d)]
     | none => handleVote s support o = voteSubmit s support o) ∧
    (issuesWrite (handleVote s support o) = true ↔ ∀ r ∈ voteRules s, r.1 = false) ∧
    (s.proposal.paused = true → s.proposal.executed = true →
      handleVote s support o ≠ [Effect.toastError (voteMessage Denial.executed)] ∧
      (truthy s.isCitizen = true → isEnded s.proposal s.now = false →
        handleVote s support o = [Effect.toastError (voteMessage Denial.paused)])) := by
  have hci := creditsInvalid_of_gtZero hc
  have hw := issuesWrite_voteSubmit s support o
  simp only [handleVote, hci, voteRules, firstDenial]
  cases truthy s.isCitizen <;> cases isEnded s.proposal s.now <;> cases s.proposal.paused <;>
    cases s.proposal.executed <;> cases truthy s.hasVetoed <;> cases truthy s.hasVoted <;>
    simp [voteMessage, hw, issuesWrite_toastError]

/-- Witness for C1: a citizen before the end on a proposal both paused and executed is told
the proposal is paused. -/
theorem handleVote_first_denial_witness :
    (parseFloat "100").gtZero = true ∧
    handleVote (flagState true false true true false false) true allOk =
      [Effect.toastError "Proposal is paused."] :=
  ⟨by decide,
   (handleVote_first_denial (flagState true false true true false false) true allOk
      (by decide)).1⟩

/-- C2: `handleVeto` reports exactly one denial, that of the first true predicate in the order
not a citizen, ended, paused, executed, voted, vetoed (voted before vetoed); it submits the veto
exactly when none of the six holds. -/
theorem handleVeto_first_denial (s : CardState) (o : Outcomes) :
    (match firstDenial (vetoRules s) with
     | some d => handleVeto s o = [Effect.toastError (vetoMessage d)]
     | none => handleVeto s o = vetoSubmit s o) ∧
    (issuesWrite (handleVeto s o) = true ↔ ∀ r ∈ vetoRules s, r.1 = false) := by
  have hw := issuesWrite_vetoSubmit s o
  simp only [handleVeto, vetoRules, firstDenial]
  cases truthy s.isCitizen <;> cases isEnded s.proposal s.now <;> cases s.proposal.paused <;>
    cases s.proposal.executed <;> cases truthy s.hasVetoed <;> cases truthy s.hasVoted <;>
    simp [vetoMessage, hw, issuesWrite_toastError]

/-! ## Unknown reads -/

/-- C3, counterexample: with every other guard passing and the `hasVoted` read not returned,
`handleVote` issues the vote write. -/
theorem handleVote_unknown_hasVoted_submits :
    unknownVoteRecord.hasVoted = none ∧
    Effect.writeContract "vote" [Arg.num 5, Arg.bool true, Arg.str "100"] ∈
      handleVote unknownVoteRecord true allOk := by
  decide

/-- C3, amended: `handleVote` treats an unknown `hasVoted` or `hasVetoed` exactly as `false`;
it denies on account of the vote record only when the read returned `true`. -/
theorem handleVote_unknown_record_as_false (s : CardState) (support : Bool) (o : Outcomes) :
    handleVote { s with hasVoted := none } support o =
      handleVote { s with hasVoted := some false } support o ∧
    handleVote { s with hasVetoed := none } support o =
      handleVote { s with hasVetoed := some false } support o ∧
    (handleVote s support o = [Effect.toastError (voteMessage Denial.voted)] →
      s.hasVoted = some true) ∧
    (handleVote s support o = [Effect.toastError (voteMessage Denial.vetoed)] →
      s.hasVetoed = some true) := by
  refine ⟨rfl, rfl, ?_, ?_⟩
  · intro h
    apply truthy_eq_true.mp
    revert h
    unfold handleVote
    cases creditsInvalid s.voteCredits <;> cases truthy s.isCitizen <;>
      cases isEnded s.proposal s.now <;> cases s.proposal.paused <;>
      cases s.proposal.executed <;> cases truthy s.hasVetoed <;> cases truthy s.hasVoted <;>
      simp [voteMessage, voteSubmit]
  · intro h
    apply truthy_eq_true.mp
    revert h
    unfold handleVote
    cases creditsInvalid s.voteCredits <;> cases truthy s.isCitizen <;>
      cases isEnded s.proposal s.now <;> cases s.proposal.paused <;>
      cases s.proposal.executed <;> cases truthy s.hasVetoed <;> cases truthy s.hasVoted <;>
      simp [voteMessage, voteSubmit]

/-- C4: when the `isCitizen` read has not returned a value, `handleVote` and `handleVeto` each
end in a single denial toast and issue no write, whatever the other flags, credits and outcomes. -/
theorem unknown_citizen_denied (s : CardState) (support : Bool) (o : Outcomes)
    (h : s.isCitizen = none) :
    (∃ msg, handleVote s support o = [Effect.toastError msg]) ∧
    issuesWrite (handleVote s support o) = false ∧
    handleVeto s o = [Effect.toastError (vetoMessage Denial.notCitizen)] ∧
    issuesWrite (handleVeto s o) = false := by
  have hv : handleVeto s o = [Effect.toastError (vetoMessage Denial.notCitizen)] := by
    simp [handleVeto, h, truthy, vetoMessage]
  have hvote : ∃ msg, handleVote s support o = [Effect.toastError msg] := by
    unfold handleVote
    cases creditsInvalid s.voteCredits <;> simp [h, truthy]
  obtain ⟨msg, hmsg⟩ := hvote
  exact ⟨⟨msg, hmsg⟩, by rw [hmsg]; rfl, hv, by rw [hv]; rfl⟩

/-- Witness for C4: the state with valid credits and no `isCitizen` value. -/
theorem unknown_citizen_denied_witness :
    ({ flagState true false false false false false with isCitizen := none } : CardState).isCitizen
      = none ∧
    issuesWrite (handleVote { flagState true false false false false false with isCitizen := none }
      true allOk) = false :=
  ⟨rfl,
   (unknown_citizen_denied { flagState true false false false false false with isCitizen := none }
      true allOk rfl).2.1⟩

/-! ## The end of the voting period -/

/-- C6, the card at the boundary: at `now = endTime` the proposal does not count as ended and a
citizen's vote and veto are both written. -/
theorem vote_and_veto_written_at_endTime :
    boundaryState.proposal.endTime ≤ boundaryState.now ∧
    isEnded boundaryState.proposal boundaryState.now = false ∧
    issuesWrite (handleVote boundaryState true allOk) = true ∧
    issuesWrite (handleVeto boundaryState allOk) = true := by
  decide

/-- C7: `handleExecute` issues a write only if `now ≥ endTime` and the proposal is neither
executed nor paused; when one of the three fails it performs no effect at all, so no write is
issued and the executing flag is not set. -/
theorem handleExecute_guard (s : CardState) (o : Outcomes) :
    (issuesWrite (handleExecute s o) = true →
      s.proposal.endTime ≤ s.now ∧ s.proposal.executed = false ∧ s.proposal.paused = false) ∧
    (¬ (s.proposal.endTime ≤ s.now ∧ s.proposal.executed = false ∧ s.proposal.paused = false) →
      handleExecute s o = []) := by
  unfold handleExecute isEnded
  by_cases ht : s.proposal.endTime < s.now
  · have hle : s.proposal.endTime ≤ s.now := le_of_lt ht
    cases he : s.proposal.executed <;> cases hp : s.proposal.paused <;>
      simp [ht, hle, issuesWrite]
  · constructor
    · simp [ht, issuesWrite]
    · simp [ht]

/-! ## Credits and citizenship -/

/-- C9, counterexample: a non-citizen with an empty credits field is told to enter valid
credits, not that citizenship is missing. -/
theorem handleVote_nonCitizen_credits_first :
    truthy nonCitizenNoCredits.isCitizen = false ∧
    handleVote nonCitizenNoCredits true allOk =
      [Effect.toastError "Please enter valid vote credits"] ∧
    handleVote nonCitizenNoCredits true allOk ≠
      [Effect.toastError (voteMessage Denial.notCitizen)] := by
  decide

/-- C9, amended: for a non-citizen `handleVote` never writes; it reports the citizenship denial
when the credits pass the credits check and the credits denial when they do not. -/
theorem handleVote_nonCitizen (s : CardState) (support : Bool) (o : Outcomes)
    (h : truthy s.isCitizen = false) :
    issuesWrite (handleVote s support o) = false ∧
    (creditsInvalid s.voteCredits = false →
      handleVote s support o = [Effect.toastError (voteMessage Denial.notCitizen)]) ∧
    (creditsInvalid s.voteCredits = true →
      handleVote s support o = [Effect.toastError "Please enter valid vote credits"]) := by
  unfold handleVote
  cases creditsInvalid s.voteCredits <;> simp [h, voteMessage, issuesWrite_toastError]

/-- Witness for C9: a non-citizen with the initial credits is told citizenship is required. -/
theorem handleVote_nonCitizen_witness :
    truthy (flagState false false false false false false).isCitizen = false ∧
    handleVote (flagState false false false false false false) true allOk =
      [Effect.toastError "You must be a registered citizen to vote."] :=
  ⟨rfl,
   (handleVote_nonCitizen (flagState false false false false false false) true allOk rfl).2.1
     (by decide)⟩

/-- C8: the credits check of `handleVote` denies exactly when the entry typed into the credits
field is not a positive number. An empty, non-numeric, zero or negative entry ends in the credits
denial with no write; a positive entry, whatever its size, passes the check and, when no
eligibility rule denies, is written to the ledger as it was entered. -/
theorem credits_check_exact (entry : String) (s : CardState) (support : Bool) (o : Outcomes) :
    (creditsInvalid (numberInputValue entry) = true ↔ positiveEntry entry = false) ∧
    (positiveEntry entry = false →
      handleVote { s with voteCredits := numberInputValue entry } support o =
        [Effect.toastError "Please enter valid vote credits"]) ∧
    (positiveEntry entry = true →
      handleVote { s with voteCredits := numberInputValue entry } support o ≠
        [Effect.toastError "Please enter valid vote credits"] ∧
      (firstDenial (voteRules s) = none →
        handleVote { s with voteCredits := numberInputValue entry } support o =
          voteSubmit { s with voteCredits := entry } support o ∧
        Effect.writeContract "vote" [Arg.num s.proposal.id, Arg.bool support, Arg.str entry] ∈
          handleVote { s with voteCredits := numberInputValue entry } support o)) := by
  have hci := creditsInvalid_numberInputValue entry
  refine ⟨by rw [hci]; cases positiveEntry entry <;> simp, ?_, ?_⟩
  · intro hp
    rw [hp] at hci
    simp [handleVote, hci]
  · intro hp
    rw [hp] at hci
    have hval : numberInputValue entry = entry := by
      unfold positiveEntry at hp
      unfold numberInputValue
      cases hv : isValidFloatingPointNumber entry
      · rw [hv] at hp
        cases hp
      · rfl
    simp only [hval] at hci ⊢
    simp only [handleVote, hci, voteRules, firstDenial]
    cases truthy s.isCitizen <;> cases isEnded s.proposal s.now <;> cases s.proposal.paused <;>
      cases s.proposal.executed <;> cases truthy s.hasVetoed <;> cases truthy s.hasVoted <;>
      simp [voteSubmit]

/-! ## In-flight votes -/

/-- C5, counterexample: on an idle card a click on Vote Yes followed, before anything settles,
by a click on Vote No leaves two vote writes outstanding for the same account and proposal; and
so does a click on Vote Yes followed by a remount of the card and a second click on Vote Yes. -/
theorem two_votes_outstanding :
    writesIssued idleCard [CardEvent.clickVote true, CardEvent.clickVote false] =
      [true, false] ∧
    ((idleCard.step (CardEvent.clickVote true)).step (CardEvent.clickVote false)).pendingVotes =
      [(false, 0), (true, 0)] ∧
    writesIssued idleCard
        [CardEvent.clickVote true, CardEvent.remount, CardEvent.clickVote true] =
      [true, true] ∧
    (((idleCard.step (CardEvent.clickVote true)).step CardEvent.remount).step
        (CardEvent.clickVote true)).pendingVotes = [(true, 1), (true, 0)] := by
  decide

/-- C5, amended: once a click on a vote button has issued a vote write, that button is disabled
and stays so, and no event issues another write with the same support value, for as long as the
card instance stays mounted and none of its own votes settles, whatever is clicked, rendered or
settled for earlier instances meanwhile; a remount lifts the block, the same click issuing a
write again. -/
theorem same_button_blocked (r : CardRun) (b : Bool) (evs : List CardEvent)
    (h : r.issued (CardEvent.clickVote b) = some b)
    (hk : ∀ ev ∈ evs, ev.keepsFlags r.mounted = true) :
    voteButtonDisabled (r.step (CardEvent.clickVote b)) b = true ∧
    voteButtonDisabled (evs.foldl CardRun.step (r.step (CardEvent.clickVote b))) b = true ∧
    b ∉ writesIssued (r.step (CardEvent.clickVote b)) evs ∧
    ((r.step (CardEvent.clickVote b)).step CardEvent.remount).issued (CardEvent.clickVote b) =
      some b := by
  have hstep : r.step (CardEvent.clickVote b) =
      { r with
        isVotingYes := r.isVotingYes || b
        isVotingNo := r.isVotingNo || !b
        pendingVotes := (b, r.mounted) :: r.pendingVotes } := by
    simp only [CardRun.step, h]
  have hfl : (r.step (CardEvent.clickVote b)).inFlight b = true := by
    rw [hstep]
    unfold CardRun.inFlight
    cases b <;> simp
  have hm : (r.step (CardEvent.clickVote b)).mounted = r.mounted := by
    rw [hstep]
  have hk2 : ∀ ev ∈ evs, ev.keepsFlags (r.step (CardEvent.clickVote b)).mounted = true := by
    rw [hm]
    exact hk
  obtain ⟨h1, h2⟩ := run_keeps_inFlight b evs (r.step (CardEvent.clickVote b)) hfl hk2
  refine ⟨?_, ?_, h2, ?_⟩
  · simp [voteButtonDisabled, hfl]
  · simp [voteButtonDisabled, h1]
  · have hfalse := (issued_eq_some r _ b h).2
    rw [issued_clickVote] at h ⊢
    rw [hstep]
    by_cases hs : (!actionsShown r || voteButtonDisabled r b) = true
    · simp [hs] at h
    · have hs2 : (!actionsShown r || voteButtonDisabled r b) = false := by
        simpa using hs
      simp only [Bool.or_eq_false_iff] at hs2
      by_cases hw : issuesWrite (handleVote r.card b allOk) = true
      · have hd : voteButtonDisabled r b = false := hs2.2
        have ha : actionsShown r = true := by simpa using hs2.1
        simp only [voteButtonDisabled, CardRun.inFlight, hfalse, Bool.false_or] at hd
        simp [CardRun.step, actionsShown, voteButtonDisabled, CardRun.inFlight, hw] at ha ⊢
        cases b <;> simp_all
      · simp [hs, hw] at h

/-- Witness for C5: after Vote Yes on the idle card, further clicks on Vote Yes, a click on
Vote No and a new render issue no second Yes vote. -/
theorem same_button_blocked_witness :
    idleCard.issued (CardEvent.clickVote true) = some true ∧
    true ∉ writesIssued (idleCard.step (CardEvent.clickVote true))
      [CardEvent.clickVote true, CardEvent.clickVote false,
       CardEvent.rerender idleCard.card, CardEvent.clickVote true] :=
  ⟨by decide,
   (same_button_blocked idleCard true
      [CardEvent.clickVote true, CardEvent.clickVote false,
       CardEvent.rerender idleCard.card, CardEvent.clickVote true]
      (by decide) (by decide)).2.2.1⟩

/-! ## Delegation and proxy targets -/

/-- C10: for a connected acting address, `handleDelegate` and `handleAssignProxy` issue their
write exactly when the entered target is a well-formed address that differs from the acting
address after lower-casing both; in every other case they end in a single denial toast and
issue no write. -/
theorem delegate_and_proxy_guard (isAddress : String → Bool) (g : GovState) (a : String)
    (o : Outcomes) (h : g.address = some a) :
    ((Effect.writeContract "delegateTo" [Arg.str g.delegateAddress] ∈ handleDelegate isAddress g o
        ∧ issuesWrite (handleDelegate isAddress g o) = true) ↔
      (wellFormedAddress isAddress g.delegateAddress = true ∧
        toLowerCase g.delegateAddress ≠ toLowerCase a)) ∧
    (¬ (wellFormedAddress isAddress g.delegateAddress = true ∧
        toLowerCase g.delegateAddress ≠ toLowerCase a) →
      ∃ msg, handleDelegate isAddress g o = [Effect.toastError msg]) ∧
    ((Effect.writeContract "assignProxy" [Arg.str g.proxyAddress] ∈ handleAssignProxy isAddress g o
        ∧ issuesWrite (handleAssignProxy isAddress g o) = true) ↔
      (wellFormedAddress isAddress g.proxyAddress = true ∧
        toLowerCase g.proxyAddress ≠ toLowerCase a)) ∧
    (¬ (wellFormedAddress isAddress g.proxyAddress = true ∧
        toLowerCase g.proxyAddress ≠ toLowerCase a) →
      ∃ msg, handleAssignProxy isAddress g o = [Effect.toastError msg]) := by
  refine ⟨?_, ?_, ?_, ?_⟩
  · unfold handleDelegate wellFormedAddress sameAsActing
    rw [h]
    by_cases he : g.delegateAddress = "" <;> cases hi : isAddress g.delegateAddress <;>
      by_cases hl : toLowerCase g.delegateAddress = toLowerCase a <;>
      simp [he, hi, hl, issuesWrite]
  · unfold handleDelegate wellFormedAddress sameAsActing
    rw [h]
    by_cases he : g.delegateAddress = "" <;> cases hi : isAddress g.delegateAddress <;>
      by_cases hl : toLowerCase g.delegateAddress = toLowerCase a <;>
      simp [he, hi, hl]
  · unfold handleAssignProxy wellFormedAddress sameAsActing
    rw [h]
    by_cases he : g.proxyAddress = "" <;> cases hi : isAddress g.proxyAddress <;>
      by_cases hl : toLowerCase g.proxyAddress = toLowerCase a <;>
      simp [he, hi, hl, issuesWrite]
  · unfold handleAssignProxy wellFormedAddress sameAsActing
    rw [h]
    by_cases he : g.proxyAddress = "" <;> cases hi : isAddress g.proxyAddress <;>
      by_cases hl : toLowerCase g.proxyAddress = toLowerCase a <;>
      simp [he, hi, hl]

/-- Witness for C10: delegating from one address to another issues the write. -/
theorem delegate_and_proxy_guard_witness :
    (some aliceAddress : Option String) = some aliceAddress ∧
    issuesWrite (handleDelegate isLowerHexAddress
      { address := some aliceAddress, delegateAddress := bobAddress, proxyAddress := "" }
      allOk) = true :=
  ⟨rfl,
   ((delegate_and_proxy_guard isLowerHexAddress
      { address := some aliceAddress, delegateAddress := bobAddress, proxyAddress := "" }
      aliceAddress allOk rfl).1.mpr (by decide)).2⟩

/-! ## Aggregate statistics -/

/-- C11: the active count of the Dashboard tile and of `getStats` is the number of proposals
with executed = false, paused = false and endTime > now; in the three-proposal scenario it is 1
at every instant. -/
theorem active_count_spec (proposals : List Proposal) (now : Int) :
    dashboardActiveCount proposals now =
      proposals.countP (fun p =>
        decide (p.executed = false ∧ p.paused = false ∧ now < p.endTime)) ∧
    (getStats proposals now).active =
      proposals.countP (fun p =>
        decide (p.executed = false ∧ p.paused = false ∧ now < p.endTime)) ∧
    dashboardActiveCount (scenario now) now = 1 ∧
    (getStats (scenario now) now).active = 1 := by
  have hpred : (fun p : Proposal => !p.executed && !p.paused && decide (p.endTime > now)) =
      (fun p => decide (p.executed = false ∧ p.paused = false ∧ now < p.endTime)) := by
    funext p
    cases p.executed <;> cases p.paused <;> simp
  refine ⟨?_, ?_, ?_, ?_⟩
  · simp only [dashboardActiveCount, hpred, List.countP_eq_length_filter]
  · simp only [getStats, hpred, List.countP_eq_length_filter]
  · simp [dashboardActiveCount, scenario]
  · simp [getStats, scenario]

/-- C12: the ended count of `getStats` is the number of proposals with executed = false,
paused = false and endTime ≤ now; in the three-proposal scenario it is 1 at every instant. -/
theorem ended_count_spec (proposals : List Proposal) (now : Int) :
    (getStats proposals now).ended =
      proposals.countP (fun p =>
        decide (p.executed = false ∧ p.paused = false ∧ p.endTime ≤ now)) ∧
    (getStats (scenario now) now).ended = 1 := by
  have hpred : (fun p : Proposal => !p.executed && !p.paused && decide (p.endTime ≤ now)) =
      (fun p => decide (p.executed = false ∧ p.paused = false ∧ p.endTime ≤ now)) := by
    funext p
    cases p.executed <;> cases p.paused <;> simp
  refine ⟨?_, ?_⟩
  · simp only [getStats, hpred, List.countP_eq_length_filter]
  · simp [getStats, scenario]

/-- C14: the card shows an execution outcome only for a proposal with executed = true; the
outcome shown is PASSED exactly when totalYesCredits > totalNoCredits and FAILED otherwise, a tie
included; for a proposal with executed = false no outcome is shown. -/
theorem displayedOutcome_spec (p : Proposal) (now : Int) :
    (∀ r, displayedOutcome p now = some r →
      p.executed = true ∧
      (r = ExecutionOutcome.PASSED ↔ p.totalYesCredits > p.totalNoCredits) ∧
      (r = ExecutionOutcome.FAILED ↔ p.totalYesCredits ≤ p.totalNoCredits)) ∧
    (p.totalYesCredits = p.totalNoCredits →
      displayedOutcome p now ≠ some ExecutionOutcome.PASSED) ∧
    (p.executed = false → displayedOutcome p now = none) ∧
    (p.executed = true → isEnded p now = true → displayedOutcome p now ≠ none) := by
  unfold displayedOutcome
  cases isEnded p now <;> cases p.executed <;>
    by_cases h : p.totalYesCredits > p.totalNoCredits <;> simp [h] <;> omega


/-- C13: on the Dashboard, whose list never has more than six proposals, the participation rate
is "0%" for the empty list and otherwise the percentage `round (100 * k / n)`, with `n` the length
of the list and `k` the number of proposals with totalYesCredits > 0 or totalNoCredits > 0; the
percentage is at most 100; in the three-proposal scenario the text is "67%". -/
theorem participation_rate_spec (proposals : List Proposal) (now : Int)
    (h : proposals.length ≤ 6) :
    (proposals = [] → participationRate proposals = "0%") ∧
    (proposals ≠ [] →
      participationRate proposals =
        toString (roundNearest
          (100 * proposals.countP (fun p => decide (0 < p.totalYesCredits ∨ 0 < p.totalNoCredits)))
          proposals.length) ++ "%" ∧
      roundNearest
          (100 * proposals.countP (fun p => decide (0 < p.totalYesCredits ∨ 0 < p.totalNoCredits)))
          proposals.length ≤ 100) ∧
    participationRate (scenario now) = "67%" := by
  have hpred : (fun p : Proposal =>
      decide (p.totalYesCredits > 0) || decide (p.totalNoCredits > 0)) =
      (fun p => decide (0 < p.totalYesCredits ∨ 0 < p.totalNoCredits)) := by
    funext p
    simp
  refine ⟨?_, ?_, ?_⟩
  · rintro rfl
    rfl
  · intro hne
    have hpos : 0 < proposals.length := List.length_pos.mpr hne
    have hk : proposals.countP (fun p => decide (0 < p.totalYesCredits ∨ 0 < p.totalNoCredits))
        ≤ proposals.length := List.countP_le_length _
    have hsmall := ratePercent_small proposals.length (by omega)
      (proposals.countP (fun p => decide (0 < p.totalYesCredits ∨ 0 < p.totalNoCredits)))
      (by omega) hpos hk
    have hpct : participationPercent proposals =
        ratePercent
          (proposals.countP (fun p => decide (0 < p.totalYesCredits ∨ 0 < p.totalNoCredits)))
          proposals.length := by
      simp only [participationPercent, hpred, List.countP_eq_length_filter]
    constructor
    · simp only [participationRate, hpos, gt_iff_lt, ↓reduceIte, hpct, hsmall.1]
    · rw [← hsmall.1]
      exact hsmall.2
  · have hlen : (scenario now).length > 0 := by simp [scenario]
    simp only [participationRate, hlen, ↓reduceIte, participationPercent_scenario]
    decide

/-- Witness for C13: the scenario list has three entries and reads "67%". -/
theorem participation_rate_spec_witness :
    (scenario 0).length ≤ 6 ∧ participationRate (scenario 0) = "67%" :=
  ⟨by decide, (participation_rate_spec (scenario 0) 0 (by decide)).2.2⟩

/-! ## Assembly of the proposal lists -/

/-- C15: for an id list and a batch result of the same length, the list both pages assemble holds
exactly the snapshots of the positions whose read succeeded, each under the id at its own
position: the Proposals page holds them in position order, the Dashboard a reordering of the
same snapshots; their number is the number of successful items, so the list is not empty as soon
as one item succeeded. -/
theorem batch_attribution (ids : List Nat) (data : List BatchItem)
    (h : data.length = ids.length) :
    loadedProposals ids data = attributed ids data ∧
    (dashboardLoadedProposals ids data).Perm (attributed ids data) ∧
    (loadedProposals ids data).length = data.countP BatchItem.succeeded ∧
    (dashboardLoadedProposals ids data).length = data.countP BatchItem.succeeded ∧
    ((∃ item ∈ data, item.succeeded = true) →
      loadedProposals ids data ≠ [] ∧ dashboardLoadedProposals ids data ≠ []) := by
  have h1 := loadedProposals_eq_attributed ids data h
  have h2 : (dashboardLoadedProposals ids data).Perm (attributed ids data) := by
    unfold dashboardLoadedProposals
    rw [h1]
    exact List.perm_insertionSort _ _
  have h3 := attributed_length ids data h
  have h4 : (dashboardLoadedProposals ids data).length = data.countP BatchItem.succeeded := by
    rw [h2.length_eq, h3]
  refine ⟨h1, h2, by rw [h1, h3], h4, ?_⟩
  intro hex
  have hpos : 0 < data.countP BatchItem.succeeded := List.countP_pos_iff.mpr hex
  constructor
  · intro hnil
    rw [h1] at hnil
    rw [hnil] at h3
    simp at h3
    omega
  · intro hnil
    rw [hnil] at h4
    simp at h4
    omega

/-- Witness for C15: a failed read between two successful ones leaves the snapshots of ids 7 and
5, and nothing under id 6. -/
theorem batch_attribution_witness :
    [okItem, failedItem, okItem].length = [7, 6, 5].length ∧
    (loadedProposals [7, 6, 5] [okItem, failedItem, okItem]).map Proposal.id = [7, 5] :=
  ⟨rfl, by
    rw [(batch_attribution [7, 6, 5] [okItem, failedItem, okItem] rfl).1]
    decide⟩

/-- C16: for every proposal count and every batch result of the Dashboard's reads, the list the
Dashboard assembles is ordered by strictly descending id. -/
theorem dashboard_descending (proposalsCount : Option Nat) (proposalsData : List BatchItem)
    (h : proposalsData.length = (dashboardProposalIds proposalsCount).length) :
    ((dashboardProposals proposalsCount proposalsData).map Proposal.id).Pairwise
      (fun a b => b < a) := by
  have hd := dashboardProposalIds_descending proposalsCount
  have hl := dashboardLoaded_of_descending (dashboardProposalIds proposalsCount) proposalsData h hd
  unfold dashboardProposals
  rw [hl.1]
  exact hl.2

/-- Witness for C16: with eight proposals on the ledger and the read of the newest failing, the
Dashboard lists ids 7 down to 3. -/
theorem dashboard_descending_witness :
    [failedItem, okItem, okItem, okItem, okItem, okItem].length =
      (dashboardProposalIds (some 8)).length ∧
    ((dashboardProposals (some 8)
        [failedItem, okItem, okItem, okItem, okItem, okItem]).map Proposal.id).Pairwise
      (fun a b => b < a) :=
  ⟨by decide,
   dashboard_descending (some 8) [failedItem, okItem, okItem, okItem, okItem, okItem]
     (by decide)⟩


/-- C17, counterexample: with two proposals on the ledger and both reads successful, the
Proposals page holds, and with its initial filters renders, the ids 1, 2 in this order, which is
not descending. -/
theorem page_list_not_descending :
    (pageProposals (some 2) [okItem, okItem]).map Proposal.id = [1, 2] ∧
    (filterProposals toLowerCase (pageProposals (some 2) [okItem, okItem]) noFilters 0).map
      Proposal.id = [1, 2] ∧
    ¬ ((pageProposals (some 2) [okItem, okItem]).map Proposal.id).Pairwise
      (fun a b => b ≤ a) := by
  decide

/-- C17, amended: for every proposal count and every batch result of its reads, the list the
Proposals page assembles, and every filtered list it renders, is ordered by strictly ascending
id (oldest first); the filters only remove entries. -/
theorem page_ascending (lower : String → String) (proposalsCount : Option Nat)
    (proposalsData : List BatchItem) (f : PageFilters) (now : Int)
    (h : proposalsData.length = (proposalsPageIds proposalsCount).length) :
    ((pageProposals proposalsCount proposalsData).map Proposal.id).Pairwise
      (fun a b => a < b) ∧
    ((filterProposals lower (pageProposals proposalsCount proposalsData) f now).map
      Proposal.id).Pairwise (fun a b => a < b) ∧
    (filterProposals lower (pageProposals proposalsCount proposalsData) f now).Sublist
      (pageProposals proposalsCount proposalsData) := by
  have hasc := proposalsPageIds_ascending proposalsCount
  have hl := loadedProposals_eq_attributed (proposalsPageIds proposalsCount) proposalsData h
  have hp : ((pageProposals proposalsCount proposalsData).map Proposal.id).Pairwise
      (fun a b => a < b) := by
    unfold pageProposals
    rw [hl]
    exact hasc.sublist (attributed_ids_sublist _ _)
  have hs := filterProposals_sublist lower (pageProposals proposalsCount proposalsData) f now
  exact ⟨hp, hp.sublist (hs.map Proposal.id), hs⟩

/-- Witness for C17: three proposals, the second read failing, listed as 1, 3. -/
theorem page_ascending_witness :
    [okItem, failedItem, okItem].length = (proposalsPageIds (some 3)).length ∧
    ((pageProposals (some 3) [okItem, failedItem, okItem]).map Proposal.id).Pairwise
      (fun a b => a < b) :=
  ⟨by decide,
   (page_ascending toLowerCase (some 3) [okItem, failedItem, okItem] noFilters 0
      (by decide)).1⟩

/-! ## Handler traces -/

/-- C18: when a guard of `handleVote`, `handleVeto` or `handleExecute` denies the action, the
handler performs no write, no finality wait, no refresh and sets no in-flight flag: the vote and
veto handlers only show the denial, the execute handler does nothing. -/
theorem no_network_on_denial (s : CardState) (support : Bool) (o : Outcomes) :
    ((creditsInvalid s.voteCredits = true ∨ firstDenial (voteRules s) ≠ none) →
      (handleVote s support o).all (fun e => !touchesLedgerOrFlags e) = true ∧
      ∃ msg, handleVote s support o = [Effect.toastError msg]) ∧
    (firstDenial (vetoRules s) ≠ none →
      (handleVeto s o).all (fun e => !touchesLedgerOrFlags e) = true ∧
      ∃ msg, handleVeto s o = [Effect.toastError msg]) ∧
    ((isEnded s.proposal s.now = false ∨ s.proposal.executed = true ∨
        s.proposal.paused = true) →
      handleExecute s o = []) := by
  refine ⟨?_, ?_, ?_⟩
  · simp only [handleVote, voteRules, firstDenial]
    cases creditsInvalid s.voteCredits <;> cases truthy s.isCitizen <;>
      cases isEnded s.proposal s.now <;> cases s.proposal.paused <;>
      cases s.proposal.executed <;> cases truthy s.hasVetoed <;> cases truthy s.hasVoted <;>
      simp [touchesLedgerOrFlags]
  · simp only [handleVeto, vetoRules, firstDenial]
    cases truthy s.isCitizen <;> cases isEnded s.proposal s.now <;> cases s.proposal.paused <;>
      cases s.proposal.executed <;> cases truthy s.hasVetoed <;> cases truthy s.hasVoted <;>
      simp [touchesLedgerOrFlags]
  · unfold handleExecute
    cases isEnded s.proposal s.now <;> cases s.proposal.executed <;> cases s.proposal.paused <;>
      simp

/-- C19, the revoke handler: when the `revokeDelegation` write succeeds, `handleRevoke` ends
with `isRevoking` still true; only a failed write lowers the flag. -/
theorem handleRevoke_flag_stays_set :
    handleRevoke allOk =
      [Effect.setFlag Flag.isRevoking true, Effect.writeContract "revokeDelegation" []] ∧
    finalFlag Flag.isRevoking false (handleRevoke allOk) = true ∧
    finalFlag Flag.isRevoking false (handleRevoke writeRejected) = false := by
  decide

/-- The seven other handlers leave their in-flight flag false on every path: vote, veto,
execute, delegate, assign proxy, register and approve, whatever the outcomes of the write, the
finality wait and the refresh. -/
theorem other_handlers_return_to_idle (isAddress : String → Bool) (spender : String)
    (s : CardState) (g : GovState) (support : Bool) (o : Outcomes) :
    finalFlag Flag.isVotingYes false (handleVote s support o) = false ∧
    finalFlag Flag.isVotingNo false (handleVote s support o) = false ∧
    finalFlag Flag.isVetoing false (handleVeto s o) = false ∧
    finalFlag Flag.isExecuting false (handleExecute s o) = false ∧
    finalFlag Flag.isDelegating false (handleDelegate isAddress g o) = false ∧
    finalFlag Flag.isAssigningProxy false (handleAssignProxy isAddress g o) = false ∧
    finalFlag Flag.isRegistering false (handleRegister o) = false ∧
    finalFlag Flag.isApproving false (handleApprove spender o) = false := by
  refine ⟨?_, ?_, ?_, ?_, ?_, ?_, ?_, ?_⟩
  · rcases handleVote_cases s support o with h | ⟨msg, h⟩
    · rw [h]
      exact finalFlag_voteSubmit s support o _ (Or.inl rfl)
    · rw [h]
      rfl
  · rcases handleVote_cases s support o with h | ⟨msg, h⟩
    · rw [h]
      exact finalFlag_voteSubmit s support o _ (Or.inr rfl)
    · rw [h]
      rfl
  · rcases handleVeto_cases s o with h | ⟨msg, h⟩
    · rw [h]
      exact finalFlag_vetoSubmit s o
    · rw [h]
      rfl
  · unfold handleExecute
    rcases o with ⟨w, wt, r, c⟩
    split_ifs
    · rfl
    · rcases w with e | tx <;> rcases wt with e | u <;> rcases c with _ | e | u <;>
        simp [executeCatch, finalFlag]
  · unfold handleDelegate
    rcases o with ⟨w, wt, r, c⟩
    split_ifs
    · rfl
    · rfl
    · rcases w with e | tx <;> rcases wt with e | u <;> rcases r with e | u <;>
        simp [delegateCatch, finalFlag]
  · unfold handleAssignProxy
    rcases o with ⟨w, wt, r, c⟩
    split_ifs
    · rfl
    · rfl
    · rcases w with e | tx <;> rcases wt with e | u <;> rcases r with e | u <;>
        simp [assignProxyCatch, finalFlag]
  · unfold handleRegister
    rcases o with ⟨w, wt, r, c⟩
    rcases w with e | tx <;> simp [finalFlag]
  · unfold handleApprove
    rcases o with ⟨w, wt, r, c⟩
    rcases w with e | tx <;> rcases wt with e | u <;> rcases r with e | u <;>
      simp [approveCatch, finalFlag]

/-- C20: in `handleVote`, `handleVeto`, `handleDelegate` and `handleAssignProxy` every re-read
(the vote or veto record and the proposal list, the delegation record, the proxy record) is
requested after the finality wait for the hash the write returned, only in a run whose write and
wait both succeeded, and at most once per entity. -/
theorem refresh_only_after_finality (isAddress : String → Bool) (s : CardState) (g : GovState)
    (support : Bool) (o : Outcomes) :
    RefreshOnlyAfterFinality o (handleVote s support o) ∧
    RefreshOnlyAfterFinality o (handleVeto s o) ∧
    RefreshOnlyAfterFinality o (handleDelegate isAddress g o) ∧
    RefreshOnlyAfterFinality o (handleAssignProxy isAddress g o) := by
  refine ⟨?_, ?_, handleDelegate_refresh isAddress g o, handleAssignProxy_refresh isAddress g o⟩
  · rcases handleVote_cases s support o with h | ⟨msg, h⟩
    · rw [h]
      exact voteSubmit_refresh s support o
    · rw [h]
      exact refreshOnly_toast o msg
  · rcases handleVeto_cases s o with h | ⟨msg, h⟩
    · rw [h]
      exact vetoSubmit_refresh s o
    · rw [h]
      exact refreshOnly_toast o msg


/-! ## The Dashboard's id list and the four counts -/

/-- C27: for a proposal count `n` the Dashboard's `proposalIds` is empty when `n = 0` and
otherwise the list `n, n - 1, ..., n - min n 6 + 1`: its length is `min n 6`, it is strictly
descending and free of duplicates, and every id lies between 1 and `n`. -/
theorem dashboardProposalIds_spec (n : Nat) :
    dashboardProposalIds (some 0) = [] ∧
    dashboardProposalIds (some n) = (List.range (min n 6)).map (fun i => n - i) ∧
    (dashboardProposalIds (some n)).length = min n 6 ∧
    (dashboardProposalIds (some n)).Pairwise (fun a b => b < a) ∧
    (dashboardProposalIds (some n)).Nodup ∧
    (∀ id ∈ dashboardProposalIds (some n), 1 ≤ id ∧ id ≤ n ∧ n - min n 6 + 1 ≤ id) := by
  have hd := descending_range n (min n 6) (Nat.min_le_left n 6)
  have hs : List.Sorted (fun a b => b ≤ a) ((List.range (min n 6)).map fun i => n - i) :=
    hd.imp (by intro a b hab; exact Nat.le_of_lt hab)
  have heq : dashboardProposalIds (some n) = (List.range (min n 6)).map (fun i => n - i) := by
    unfold dashboardProposalIds
    by_cases hn : n = 0
    · subst hn
      rfl
    · simp only [hn, ↓reduceIte]
      exact List.Sorted.insertionSort_eq hs
  refine ⟨rfl, heq, ?_, ?_, ?_, ?_⟩
  · rw [heq]
    simp
  · rw [heq]
    exact hd
  · rw [heq]
    exact hd.imp (by intro a b hab; omega)
  · rw [heq]
    intro id hid
    rw [List.mem_map] at hid
    obtain ⟨i, hi, rfl⟩ := hid
    have hi2 : i < min n 6 := List.mem_range.mp hi
    have h1 : min n 6 ≤ n := Nat.min_le_left n 6
    omega

/-- C28: when no proposal is both executed and paused, the four counts of `getStats` add up
to the number of proposals and every proposal meets exactly one of the four conditions. -/
theorem getStats_partition (proposals : List Proposal) (now : Int)
    (h : ∀ p ∈ proposals, ¬ (p.executed = true ∧ p.paused = true)) :
    (getStats proposals now).active + (getStats proposals now).ended +
      (getStats proposals now).executed + (getStats proposals now).paused =
      proposals.length ∧
    (∀ p ∈ proposals,
      (((!p.executed && !p.paused && decide (p.endTime > now)) = true ∧
          (!p.executed && !p.paused && decide (p.endTime ≤ now)) = false ∧
          p.executed = false ∧ p.paused = false) ∨
       ((!p.executed && !p.paused && decide (p.endTime > now)) = false ∧
          (!p.executed && !p.paused && decide (p.endTime ≤ now)) = true ∧
          p.executed = false ∧ p.paused = false) ∨
       ((!p.executed && !p.paused && decide (p.endTime > now)) = false ∧
          (!p.executed && !p.paused && decide (p.endTime ≤ now)) = false ∧
          p.executed = true ∧ p.paused = false) ∨
       ((!p.executed && !p.paused && decide (p.endTime > now)) = false ∧
          (!p.executed && !p.paused && decide (p.endTime ≤ now)) = false ∧
          p.executed = false ∧ p.paused = true))) := by
  refine ⟨getStats_partition_aux now proposals h, ?_⟩
  intro p hp
  have hnot := h p hp
  by_cases ht : p.endTime > now
  · have ht2 : ¬ p.endTime ≤ now := by omega
    cases he : p.executed <;> cases hpa : p.paused <;> simp_all
  · have ht2 : p.endTime ≤ now := by omega
    cases he : p.executed <;> cases hpa : p.paused <;> simp_all

/-- Witness for C28: the three proposals of the scenario split into one active, one ended and
one executed. -/
theorem getStats_partition_witness :
    (∀ p ∈ scenario 100, ¬ (p.executed = true ∧ p.paused = true)) ∧
    (getStats (scenario 100) 100).active + (getStats (scenario 100) 100).ended +
      (getStats (scenario 100) 100).executed + (getStats (scenario 100) 100).paused =
      (scenario 100).length :=
  ⟨by decide, (getStats_partition (scenario 100) 100 (by decide)).1⟩

/-! ## Tooltips and the time label -/

/-- C29: with valid credits, the tooltip of the vote buttons is the denial message `handleVote`
reports and the tooltip of the veto button is the one `handleVeto` reports; a tooltip is empty
exactly when the handler submits. -/
theorem tooltips_match_handlers (s : CardState) (support : Bool) (o : Outcomes)
    (hc : (parseFloat s.voteCredits).gtZero = true) :
    (voteTitle s ≠ "" → handleVote s support o = [Effect.toastError (voteTitle s)]) ∧
    (voteTitle s = "" ↔ issuesWrite (handleVote s support o) = true) ∧
    (voteTitle s = "" → handleVote s support o = voteSubmit s support o) ∧
    (vetoTitle s ≠ "" → handleVeto s o = [Effect.toastError (vetoTitle s)]) ∧
    (vetoTitle s = "" ↔ issuesWrite (handleVeto s o) = true) ∧
    (vetoTitle s = "" → handleVeto s o = vetoSubmit s o) := by
  have hci := creditsInvalid_of_gtZero hc
  have hw := issuesWrite_voteSubmit s support o
  have hv := issuesWrite_vetoSubmit s o
  simp only [handleVote, handleVeto, hci, voteTitle, vetoTitle]
  cases truthy s.isCitizen <;> cases isEnded s.proposal s.now <;> cases s.proposal.paused <;>
    cases s.proposal.executed <;> cases truthy s.hasVetoed <;> cases truthy s.hasVoted <;>
    simp [hw, hv, issuesWrite_toastError]

/-- Witness for C29: a citizen who has already voted sees, and is told, the same sentence. -/
theorem tooltips_match_handlers_witness :
    (parseFloat "100").gtZero = true ∧
    handleVote (flagState true false false false true false) true allOk =
      [Effect.toastError (voteTitle (flagState true false false false true false))] :=
  ⟨by decide,
   (tooltips_match_handlers (flagState true false false false true false) true allOk
      (by decide)).1 (by decide)⟩

/-- C30, the card at the boundary: `getTimeRemaining` returns 'Ended' exactly when
`endTime ≤ now`, whereas `isEnded` needs `endTime < now`; at `now = endTime` on an open
proposal the label reads 'Ended' while the proposal does not count as ended and the vote and
veto controls are shown. -/
theorem ended_label_with_controls :
    (∀ (p : Proposal) (now : Int),
      getTimeRemaining p now = TimeLabel.ended ↔ p.endTime ≤ now) ∧
    (getTimeRemaining boundaryState.proposal boundaryState.now).text = "Ended" ∧
    isEnded boundaryState.proposal boundaryState.now = false ∧
    controlsShown boundaryState.proposal boundaryState.now = true := by
  refine ⟨?_, by decide, by decide, by decide⟩
  intro p now
  unfold getTimeRemaining
  by_cases h : p.endTime - now ≤ 0
  · simp only [h, ↓reduceIte, true_iff]
    omega
  · simp only [h, ↓reduceIte]
    constructor
    · intro hc
      split_ifs at hc
    · intro hc
      omega

/-! ## Category names and the proxy block -/

/-- C25, the two name tables: for each index 0 to 3 the card (and the Proposals page filter)
shows Governance, Infrastructure, Policy, Development where the creation form offers Budget,
Policy, Infrastructure, Other; the card's budget test holds for category 0, which it labels
Governance. -/
theorem category_names_differ :
    (List.range 4).map cardCategoryName =
      ["Governance", "Infrastructure", "Policy", "Development"] ∧
    (List.range 4).map filterCategoryName =
      [some "Governance", some "Infrastructure", some "Policy", some "Development"] ∧
    (List.range 4).map formCategoryName =
      [some "Budget", some "Policy", some "Infrastructure", some "Other"] ∧
    (∀ c < 4, some (cardCategoryName c) ≠ formCategoryName c) ∧
    isBudgetProposal (flagState true false false false false false).proposal = false ∧
    isBudgetProposal { (flagState true false false false false false).proposal with
      category := 0 } = true ∧
    cardCategoryName 0 ≠ "Budget" := by
  decide

/-- C23, counterexample: a record with a non-zero proxy whose expiry (50) is before now (100)
is still presented as an assigned proxy. -/
theorem expired_proxy_still_shown :
    (50 : Nat) < 100 ∧
    proxyView false (some { proxy := bobAddress, expiry := 50 }) =
      ProxyView.assigned bobAddress 50 ∧
    proxyView false (some { proxy := bobAddress, expiry := 50 }) ≠
      ProxyView.noProxyAssigned := by
  decide

/-- C23, amended: the Governance view presents an assigned proxy exactly when the proxy state
is loaded and holds a record whose proxy is not the zero identity; the expiry is displayed and
plays no part in the choice, so the presentation is the same at every instant. -/
theorem proxyView_spec (isLoadingProxy : Bool) (proxy : Option ProxyRecord) :
    ((∃ a e, proxyView isLoadingProxy proxy = ProxyView.assigned a e) ↔
      (isLoadingProxy = false ∧ ∃ r, proxy = some r ∧ r.proxy ≠ addressZero)) ∧
    (∀ r, proxy = some r → ∀ e : Nat,
      (∃ a x, proxyView isLoadingProxy (some { r with expiry := e }) = ProxyView.assigned a x) ↔
      (∃ a x, proxyView isLoadingProxy proxy = ProxyView.assigned a x)) ∧
    (∀ r, isLoadingProxy = false → proxy = some r → r.proxy ≠ addressZero →
      proxyView isLoadingProxy proxy = ProxyView.assigned r.proxy r.expiry) := by
  refine ⟨?_, ?_, ?_⟩
  · unfold proxyView
    cases isLoadingProxy <;> rcases proxy with _ | r <;> simp
    by_cases h : r.proxy = addressZero <;> simp [h]
  · intro r hr e
    subst hr
    unfold proxyView
    cases isLoadingProxy <;> simp
    by_cases h : r.proxy = addressZero <;> simp [h]
  · intro r hl hr hne
    subst hr
    simp [proxyView, hl, hne]

/-! ## Messages, the citizen flag, the creation form and the Profile history -/

/-- C21, counterexample: a budget proposal whose write the ledger rejects with the reason
"Voting closed" is reported with a fixed sentence, not with the reason. -/
theorem handleSubmit_hides_reason :
    FailsWithReason rejectedVotingClosed "Voting closed" ∧
    surfaced (handleSubmit isLowerHexAddress parseWholeEther budgetForm rejectedVotingClosed) =
      ["Transaction reverted. Please check your wallet and try again."] ∧
    surfaced (handleSubmit isLowerHexAddress parseWholeEther budgetForm rejectedVotingClosed) ≠
      ["Voting closed"] := by
  refine ⟨⟨by decide, Or.inl ⟨_, rfl, rfl⟩⟩, by decide, by decide⟩

/-- C21, amended: when the write or the finality wait of a vote or a veto fails with a
rejection reason `r`, the one message shown is exactly `r`; when the write of the creation form
is rejected, the one message shown is one of the form's three fixed sentences, chosen by the
words in the error message. -/
theorem rejection_messages (isAddress : String → Bool)
    (parseEther : String → Except JSError Nat) (s : CardState) (f : FormData) (support : Bool)
    (o : Outcomes) (r : String) (h : FailsWithReason o r) :
    (handleVote s support o = voteSubmit s support o →
      surfaced (handleVote s support o) = [r]) ∧
    (handleVeto s o = vetoSubmit s o → surfaced (handleVeto s o) = [r]) ∧
    (∀ e, o.write = .error e → issuesWrite (handleSubmit isAddress parseEther f o) = true →
      surfaced (handleSubmit isAddress parseEther f o) = [submitMessage e] ∧
      (submitMessage e = "You must be a registered citizen to create proposals." ∨
       submitMessage e = "Transaction reverted. Please check your wallet and try again." ∨
       submitMessage e = "An unexpected error occurred. Please try again.")) := by
  refine ⟨?_, ?_, ?_⟩
  · intro hs
    rw [hs]
    exact surfaced_voteSubmit s support o r h
  · intro hs
    rw [hs]
    exact surfaced_vetoSubmit s o r h
  · intro e hw hi
    exact ⟨surfaced_handleSubmit isAddress parseEther f o e hw hi, submitMessage_fixed e⟩

/-- Witness for C21: a vote whose write is rejected with "Voting closed" shows that reason. -/
theorem rejection_messages_witness :
    FailsWithReason rejectedVotingClosed "Voting closed" ∧
    surfaced (handleVote (flagState true false false false false false) true
      rejectedVotingClosed) = ["Voting closed"] :=
  ⟨⟨by decide, Or.inl ⟨_, rfl, rfl⟩⟩,
   (rejection_messages isLowerHexAddress parseWholeEther
      (flagState true false false false false false) budgetForm true rejectedVotingClosed
      "Voting closed" ⟨by decide, Or.inl ⟨_, rfl, rfl⟩⟩).1 (by decide)⟩

/-- C22, counterexample: a successful `handleRegister` sets `isCitizen` to true itself, with no
finality wait and no read before or after. -/
theorem handleRegister_sets_isCitizen :
    handleRegister allOk =
      [Effect.setFlag Flag.isRegistering true, Effect.setRegisterError none,
       Effect.writeContract "registerCitizen" [],
       Effect.toastSuccess "Successfully registered as citizen!", Effect.setIsCitizen true,
       Effect.setFlag Flag.isRegistering false] ∧
    finalIsCitizen false (handleRegister allOk) = true ∧
    (handleRegister allOk).any isWaitOrRefresh = false := by
  decide

/-- C22, amended: the Dashboard's `isCitizen` is set by the effect on the `isCitizen` read,
to the value read whenever one is defined, and by `handleRegister`, which sets it to true as
soon as the `registerCitizen` write has returned and leaves it alone when the write is rejected;
`handleRegister` performs no finality wait and no re-read, and `handleApprove` never sets it. -/
theorem isCitizen_writers (spender : String) (isCitizen : Bool) (citizenStatus : ReadData)
    (o : Outcomes) :
    (∀ b, citizenStatus = some b → citizenStatusEffect isCitizen citizenStatus = b) ∧
    (citizenStatus = none → citizenStatusEffect isCitizen citizenStatus = isCitizen) ∧
    ((∃ tx, o.write = .ok tx) → finalIsCitizen isCitizen (handleRegister o) = true) ∧
    ((∃ e, o.write = .error e) → finalIsCitizen isCitizen (handleRegister o) = isCitizen) ∧
    (handleRegister o).any isWaitOrRefresh = false ∧
    finalIsCitizen isCitizen (handleApprove spender o) = isCitizen := by
  rcases o with ⟨w, wt, rf, c⟩
  refine ⟨?_, ?_, ?_, ?_, ?_, ?_⟩
  · rintro b rfl
    rfl
  · rintro rfl
    rfl
  · rintro ⟨tx, htx⟩
    simp only at htx
    subst htx
    simp [handleRegister, finalIsCitizen]
  · rintro ⟨e, he⟩
    simp only at he
    subst he
    simp [handleRegister, finalIsCitizen]
  · rcases w with e | tx <;> simp [handleRegister, isWaitOrRefresh, isRefresh]
  · rcases w with e | tx <;> rcases wt with e | u <;> rcases rf with e | u <;>
      simp [handleApprove, approveCatch, finalIsCitizen]

/-- C24, a non-budget form with stale budget fields: after a target address and an amount were
typed under Budget and the category switched to Policy, the form passes validation and
`handleSubmit` calls `createProposal` with the typed address and the typed amount, not with the
zero identity and 0. -/
theorem stale_budget_fields_submitted :
    selectCategory budgetForm 1 =
      { budgetForm with category := 1 } ∧
    handleSubmit isLowerHexAddress parseWholeEther (selectCategory budgetForm 1) allOk =
      [Effect.setFlag Flag.isSubmitting true,
       Effect.writeContract "createProposal"
         [Arg.str "Repair the bridge", Arg.num 1, Arg.str bobAddress,
          Arg.num 5000000000000000000],
       Effect.toastSuccess "Proposal created!", Effect.resetFormData,
       Effect.setFlag Flag.isSubmitting false] ∧
    Effect.writeContract "createProposal"
        [Arg.str "Repair the bridge", Arg.num 1, Arg.str addressZero, Arg.num 0] ∉
      handleSubmit isLowerHexAddress parseWholeEther (selectCategory budgetForm 1) allOk ∧
    Effect.writeContract "createProposal"
        [Arg.str "Repair the bridge", Arg.num 1, Arg.str addressZero, Arg.num 0] ∈
      handleSubmit isLowerHexAddress parseWholeEther
        { budgetForm with category := 1, targetAddress := "", allocatedAmount := "" }
        allOk := by
  decide

/-- C26, the Profile history: whatever the `hasVoted` and `hasVetoed` reads returned, the
history is the list built from the proposal reads alone and no entry has a voted or vetoed
flag; with two proposals, the first executed and voted on, the second not voted on, both flags
are unset, "Votes Cast" is 2 and the reputation score is 7. -/
theorem profile_ignores_vote_reads :
    (∀ (ids : List Nat) (data : List BatchItem) (votedData vetoedData : List ReadData),
      profileProposals ids data votedData vetoedData = loadedProposals ids data ∧
      ∀ vote ∈ profileProposals ids data votedData vetoedData,
        truthy vote.voted = false ∧ truthy vote.vetoed = false ∧ historyLabel vote = "") ∧
    (profileProposals [1, 2] [executedItem, okItem] [some true, some false]
        [some false, some false]).map (fun vote => (vote.id, vote.executed, truthy vote.voted)) =
      [(1, true, false), (2, false, false)] ∧
    votesCast (profileProposals [1, 2] [executedItem, okItem] [some true, some false]
        [some false, some false]) = 2 ∧
    reputationScore (profileProposals [1, 2] [executedItem, okItem] [some true, some false]
        [some false, some false]) none = 7 := by
  refine ⟨?_, by decide, by decide, by decide⟩
  intro ids data votedData vetoedData
  exact ⟨rfl, fun vote _ => ⟨rfl, rfl, rfl⟩⟩

end CiviLink
